import Mathlib

/-!
# A verification development for the `rs_lisp` interpreter

This file gives a shallow embedding, in Lean 4, of the Lisp-like expression
language implemented in `plugins/rs_lisp.py` of the Red_Star repository:
the escaper (`l_escape` / `l_restore`), the tokenizer, the reader
(`read_from_tokens` / `parse` / `atom`), the chained environment model
(`Env`), and the tree-walking evaluator (`lisp_eval`) with its standard
environment, together with theorems checking the behaviours documented in
the specification.

Modelling conventions, used throughout:

* Python strings are modelled as `List Char` in the lexing layer and as
  `String` in values; Python lists as `List`; machine integers as `Int`
  (Python ints are unbounded, so no wrap-around is needed).
* Wall-clock time is modelled by a natural-number clock that advances by
  one unit at every entry of the evaluator (the Python code calls
  `time()` at each entry of `lisp_eval`); an environment's creation
  timestamp and `max_runtime` budget are naturals on the same scale.
* Every recursive function carries an explicit fuel argument so that all
  definitions are structurally recursive and computable; fuel exhaustion
  is a distinguished outcome (`Res.spin`, `LErr.fuelErr`) which never
  occurs on the concrete inputs used below, and is never identified with
  a behaviour of the program.
* Python exceptions are modelled by `LErr`, carrying the exception's
  `str(e)` message; the distinct constructors keep the distinct Python
  exception classes apart (`CustomCommandSyntaxError`, `IndexError`, ...).
* Environments are mutable shared objects in Python; they are modelled by
  a heap (`State.frames`) addressed by natural numbers, so that closures
  capturing an environment see later mutations, exactly as in the source.
  Python *list* values, by contrast, are modelled by value: no claim
  below depends on aliasing between two reachable copies of one list.
-/

/-! ## Values

`rs_lisp` works directly on Python values: parsed atoms (ints, floats,
booleans, strings-as-symbols), nested lists, `Procedure` closures, the
callables installed by `standard_env`, `None` (returned by statement-like
forms), and exception objects (returned by `try` without a fallback).
Float values never participate in any verified claim; they are carried as
their source literal text, without modelling Python float normalisation.
The two closures created per `struct` declaration by `make_functions`
(`name?` and `name-pos`) are represented by dedicated constructors.
-/

inductive LErr where
  /-- `CustomCommandSyntaxError` -/
  | ccErr (msg : String)
  /-- `CommandSyntaxError` (raised by `is_positive` on unrecognised input) -/
  | cmdErr (msg : String)
  /-- `IndexError` -/
  | idxErr (msg : String)
  /-- `TypeError` -/
  | typeErr (msg : String)
  /-- `ValueError` (tuple-unpacking arity failures) -/
  | valErr (msg : String)
  /-- `AttributeError` -/
  | attrErr (msg : String)
  /-- `ZeroDivisionError` -/
  | arithErr (msg : String)
  /-- fuel exhaustion: a modelling artefact, not a program behaviour -/
  | fuelErr
deriving Repr, DecidableEq

/-- `str(e)` of a modelled exception. -/
def LErr.msg : LErr → String
  | .ccErr m | .cmdErr m | .idxErr m | .typeErr m | .valErr m | .attrErr m
  | .arithErr m => m
  | .fuelErr => ""

inductive LVal where
  | int (n : Int)
  | float (lit : String)
  | bool (b : Bool)
  /-- a Python `str`: both symbols in the tree and string values -/
  | str (s : String)
  | list (xs : List LVal)
  /-- a `Procedure`: parameter spec (kept raw, as in the source), body,
      and the heap reference of the captured defining environment -/
  | proc (parms : LVal) (body : LVal) (envRef : Nat)
  /-- a primitive from `standard_env`, identified by its table key -/
  | prim (name : String)
  /-- the `check` closure `lambda arr: len(arr) == lisp_eval(create)`
      installed by `make_functions` for struct `name` -/
  | structCheck (name : String)
  /-- the accessor closure `lambda arr, index: arr[index]` installed by
      `make_functions` as `name + "-pos"` -/
  | structPos
  /-- Python `None` -/
  | none
  /-- an exception object used as a value (`try` without fallback) -/
  | err (e : LErr)
deriving Repr

/-! ## Python-style string primitives (on `List Char`) -/

/-- Python `str.replace`, fuelled version: replaces leftmost,
non-overlapping occurrences of pattern `p` by `r`.  `fuel` bounds the
number of scanning steps; `fuel = s.length` always suffices. -/
def strReplaceF (p r : List Char) : Nat → List Char → List Char
  | _, [] => []
  | 0, s => s
  | fuel+1, c :: cs =>
    if p.isPrefixOf (c :: cs) then
      r ++ strReplaceF p r fuel ((c :: cs).drop p.length)
    else
      c :: strReplaceF p r fuel cs

/-- Python `s.replace(p, r)`.  An empty pattern inserts `r` before every
character and at the end, as in Python. -/
def strReplace (s p r : List Char) : List Char :=
  match p with
  | [] => r ++ s.flatMap (fun c => c :: r)
  | _ :: _ => strReplaceF p r s.length s

/-- The `escapes` table of `rs_lisp`: each entry is
(escape sequence, private-use placeholder, unescaped character). -/
def escapes : List (List Char × List Char × List Char) :=
  [ (['\\', '\\'], ['＀'], ['\\']),
    (['\\', '\"'], ['！'], ['\"']),
    (['\\', 'n'],  ['＂'], ['\n']) ]

/-- `l_escape`: hides each escape sequence behind its placeholder. -/
def l_escape (s : List Char) : List Char :=
  escapes.foldl (fun acc e => strReplace acc e.1 e.2.1) s

/-- `l_restore`: replaces each placeholder by the *unescaped* character
(the third component of the `escapes` entry, not the escape sequence). -/
def l_restore (s : List Char) : List Char :=
  escapes.foldl (fun acc e => strReplace acc e.2.1 e.2.2) s

/-! ## Tokenizer

`tokenize` models `re.findall(r"(?:\").*?(?:\")|\(|\)|[^()\" ]+", ...,
re.DOTALL)` applied to the escaped text: at each position the regex
alternatives are a lazily-closed double-quoted run, a single parenthesis,
or a maximal run of characters other than `(`, `)`, `"` and space.  A
character matching no alternative (a space, or a `"` with no later `"`)
produces no token and is skipped. -/

/-- Split `cs` at its first `'"'`: `some (before, after)` or `none`. -/
def splitAtQuote : List Char → Option (List Char × List Char)
  | [] => Option.none
  | c :: cs =>
    if c = '\"' then some ([], cs)
    else (splitAtQuote cs).map (fun p => (c :: p.1, p.2))

/-- Characters that terminate a bare-atom run: `(`, `)`, `"`, space. -/
def isRunBreak (c : Char) : Bool :=
  c = '(' || c = ')' || c = '\"' || c = ' '

/-- One fuel unit per consumed character; `fuel = s.length` suffices. -/
def tokenizeF : Nat → List Char → List (List Char)
  | 0, _ => []
  | _+1, [] => []
  | fuel+1, c :: cs =>
    if c = '\"' then
      match splitAtQuote cs with
      | some (content, rest) => ('\"' :: content ++ ['\"']) :: tokenizeF fuel rest
      | Option.none => tokenizeF fuel cs
    else if c = '(' then ['('] :: tokenizeF fuel cs
    else if c = ')' then [')'] :: tokenizeF fuel cs
    else if c = ' ' then tokenizeF fuel cs
    else
      let run := cs.takeWhile (fun d => !isRunBreak d)
      (c :: run) :: tokenizeF fuel (cs.dropWhile (fun d => !isRunBreak d))

/-- `tokenize(string)`: escape, then scan. -/
def tokenize (s : List Char) : List (List Char) :=
  let t := l_escape s
  tokenizeF t.length t

/-! ## Atoms and the reader -/

/-- ASCII whitespace of Python's `\s` (used by the reader's
`re.sub(r"^\s+|\s+$", "", token)` strip). -/
def isPyWs (c : Char) : Bool :=
  c = ' ' || c = '\t' || c = '\n' || c = '\r' || c = '\x0b' || c = '\x0c'

def stripWs (s : List Char) : List Char :=
  ((s.dropWhile isPyWs).reverse.dropWhile isPyWs).reverse

/-- Python `int(token)` on a stripped token: an optional sign followed by
one or more decimal digits.  (Underscore digit grouping, accepted by
Python, is not modelled; no such token occurs in any claim.) -/
def pyIntParse (s : List Char) : Option Int :=
  let core := fun (ds : List Char) =>
    if ds ≠ [] ∧ ds.all Char.isDigit then
      some (ds.foldl (fun a c => a * 10 + (c.toNat - '0'.toNat)) 0)
    else Option.none
  match s with
  | '-' :: ds => (core ds).map (fun n => -(n : Int))
  | '+' :: ds => (core ds).map (fun n => (n : Int))
  | ds => (core ds).map (fun n => (n : Int))

/-- Recogniser for Python `float(token)` on tokens *rejected* by `int`:
sign, then a digit string with a single `.` (at least one digit overall),
with an optional exponent part.  (`inf`/`nan` spellings are not
modelled; no claim involves them.) -/
def pyFloatAccepts (s : List Char) : Bool :=
  let body := fun (ds : List Char) =>
    let mantissa := ds.takeWhile (fun c => c ≠ 'e' ∧ c ≠ 'E')
    let expPart := ds.dropWhile (fun c => c ≠ 'e' ∧ c ≠ 'E')
    let mOk :=
      mantissa.any Char.isDigit &&
      mantissa.all (fun c => c.isDigit || c = '.') &&
      (mantissa.filter (fun c => c = '.')).length ≤ 1
    let eOk :=
      match expPart with
      | [] => true
      | _ :: e1 =>
        let digs := match e1 with
                    | '+' :: ds2 => ds2
                    | '-' :: ds2 => ds2
                    | ds2 => ds2
        digs ≠ [] && digs.all Char.isDigit
    mOk && eOk
  match s with
  | '-' :: ds => body ds
  | '+' :: ds => body ds
  | ds => body ds

/-- `str.lower()` / `str.upper()` / `split(":")` / `startswith`,
written over the character list so that they reduce definitionally
(their `String`-library counterparts recurse on byte positions). -/
def lowerStr (s : String) : String := String.mk (s.data.map Char.toLower)

def upperStr (s : String) : String := String.mk (s.data.map Char.toUpper)

def splitColonAux : List Char → List Char → List String
  | [], acc => [String.mk acc.reverse]
  | d :: ds, acc =>
    if d = ':' then String.mk acc.reverse :: splitColonAux ds []
    else splitColonAux ds (d :: acc)

/-- Python `s.split(":")`: always a nonempty list of segments. -/
def splitColon (s : String) : List String := splitColonAux s.data []

def strStartsWith (p s : String) : Bool := p.data.isPrefixOf s.data

/-- Modelled from the spec: `is_positive` lives in `rs_utils`, which is
not part of the provided sources.  Per the spec's reader contract it is a
"recognized-boolean-literal parse (case-insensitive true/false family —
exact recognized spellings are an external collaborator concern)",
raising `CommandSyntaxError` on anything else.  The spellings modelled
here are `true`/`yes` and `false`/`no`; no verified claim depends on the
exact recognised set. -/
def is_positive (s : List Char) : Except LErr Bool :=
  let low := String.mk (s.map Char.toLower)
  if low = "true" ∨ low = "yes" then .ok true
  else if low = "false" ∨ low = "no" then .ok false
  else .error (.cmdErr ("Invalid true/false string " ++ String.mk s))

/-- `atom(token)`: try `int`, then `float`, then `is_positive`, else the
token lowercased as a symbol. -/
def atom (s : List Char) : LVal :=
  match pyIntParse s with
  | some n => .int n
  | Option.none =>
    if pyFloatAccepts s then .float (String.mk s)
    else
      match is_positive s with
      | .ok b => .bool b
      | .error _ => .str (String.mk (s.map Char.toLower))

/-- The quoted-token test `re.match(r'\".*\"', token, re.DOTALL)`:
the token starts with `"` and contains a second `"`. -/
def isQuotedTok (t : List Char) : Bool :=
  match t with
  | '\"' :: rest => rest.any (fun c => c = '\"')
  | _ => false

/-- the Python comparison `t != ''` of a read sub-result against the
empty string: only a `str` value compares equal to `''`. -/
def isEmptyStrAtom : LVal → Bool
  | .str s => s = ""
  | _ => false

/-! The reader.  `read_from_tokens` consumes tokens destructively from
the front of a shared list in Python; here the remaining tokens are
returned alongside the parsed expression (an explicit cursor).  The
`(`-loop reads `tokens[0]` before each sub-read, so exhausting the tokens
inside a form raises a bare Python `IndexError`, not a syntax error.
One fuel unit is spent per recursive call; `fuel = tokens.length + 1`
always suffices. -/

/-- `" ".join(l)`: defined only when every item is a string
(Python raises a `TypeError` otherwise). -/
def joinStrs : List LVal → Option String
  | [] => some ""
  | [.str s] => some s
  | .str s :: tl => (joinStrs tl).map (fun t => s ++ " " ++ t)
  | _ => Option.none

/-- The reader's three control points: reading one expression, the
`'(' == token` accumulation loop, and the `';' == token` comment loop. -/
inductive RdMode where
  | one
  | paren (acc : List LVal)
  | comment (acc : List LVal)

def readF : Nat → RdMode → List (List Char) → Except LErr (LVal × List (List Char))
  | 0, _, _ => .error .fuelErr
  | _+1, .one, [] => .error (.ccErr "unexpected EOF while reading")
  -- the loops read `tokens[0]` with the tokens exhausted: a bare IndexError
  | _+1, .paren _, [] => .error (.idxErr "list index out of range")
  | _+1, .comment _, [] => .error (.idxErr "list index out of range")
  | fuel+1, .one, t :: rest =>
    if isQuotedTok t then
      .ok (.list [.str "quote", .str (String.mk (l_restore (t.drop 1).dropLast))], rest)
    else if t = ['('] then
      readF fuel (.paren []) rest
    else if t = [';'] then
      readF fuel (.comment [.str ";"]) rest
    else if t = [')'] then
      .error (.ccErr "unexpected )")
    else
      .ok (atom (stripWs t), rest)
  | fuel+1, .paren acc, t :: rest =>
    if t = [')'] then .ok (.list acc.reverse, rest)
    else
      match readF fuel .one (t :: rest) with
      | .error e => .error e
      | .ok (v, rest') =>
        let acc' := if isEmptyStrAtom v then acc else v :: acc
        readF fuel (.paren acc') rest'
  | fuel+1, .comment acc, t :: rest =>
    if t = ['\n'] then
      match joinStrs (acc.reverse ++ [.str "\n"]) with
      | some s => .ok (.list [.str "quote", .str (String.mk (l_restore s.data))], rest)
      | Option.none => .error (.typeErr "sequence item: expected str instance")
    else
      match readF fuel .one (t :: rest) with
      | .error e => .error e
      | .ok (v, rest') => readF fuel (.comment (v :: acc)) rest'

/-- `read_from_tokens(tokens)` with an explicit cursor: returns the
parsed expression and the unconsumed tokens. -/
def readFromTokensF (fuel : Nat) (toks : List (List Char)) :
    Except LErr (LVal × List (List Char)) :=
  readF fuel .one toks

/-- `parse(program)`: tokenize then read one top-level form; any tokens
left over after the first form are discarded, exactly as in the source
(where the token list is local to `parse`). -/
def parse (s : List Char) : Except LErr LVal :=
  let toks := tokenize s
  (readFromTokensF (2 * toks.length + 2) toks).map (fun p => p.1)

/-- `parse` on a Lean string literal. -/
def parseStr (s : String) : Except LErr LVal := parse s.data

/-! ## Environments

`Env` is a Python dict subclass with an `outer` link, a creation
timestamp and a `max_runtime` budget.  Environments are shared mutable
objects (closures capture them), so they are modelled as a heap of
frames addressed by `Nat`; frame `0` of a state plays the role of the
module-level `global_env`.  A dict is modelled as an association list
with dict update semantics (`tset`). -/

structure Frame where
  table : List (String × LVal)
  outer : Option Nat
  timestamp : Nat
  max_runtime : Nat
deriving Repr

structure State where
  frames : List Frame
deriving Repr

/-- Result of an evaluation step: a value or a raised exception, each
with the updated heap and clock (Python exceptions do not roll back
mutations), or fuel exhaustion (`spin`, a modelling artefact). -/
inductive Res (α : Type) where
  | ok (v : α) (st : State) (now : Nat)
  | err (e : LErr) (st : State) (now : Nat)
  | spin
deriving Repr

/-- dict lookup. -/
def tget (tbl : List (String × LVal)) (k : String) : Option LVal :=
  match tbl with
  | [] => Option.none
  | (k', v) :: tl => if k' = k then some v else tget tl k

/-- dict assignment: replace in place, else append. -/
def tset (tbl : List (String × LVal)) (k : String) (v : LVal) :
    List (String × LVal) :=
  match tbl with
  | [] => [(k, v)]
  | (k', v') :: tl => if k' = k then (k, v) :: tl else (k', v') :: tset tl k v

def State.getFrame (st : State) (r : Nat) : Option Frame :=
  st.frames[r]?

/-- `env[k] = v` on the frame at reference `r`. -/
def State.setVar (st : State) (r : Nat) (k : String) (v : LVal) : State :=
  match st.frames[r]? with
  | some fr => ⟨st.frames.set r { fr with table := tset fr.table k v }⟩
  | Option.none => st

/-- `Env.find`: walk the outer chain for the innermost frame containing
`k`; returns the frame reference together with the bound value.  The
fuel bounds the chain length; `st.frames.length` suffices for any
acyclic chain (all reachable states have outer links pointing strictly
downwards). -/
def findPairF (st : State) : Nat → Nat → String → Option (Nat × LVal)
  | 0, _, _ => Option.none
  | fuel+1, r, k =>
    match st.getFrame r with
    | Option.none => Option.none
    | some fr =>
      match tget fr.table k with
      | some v => some (r, v)
      | Option.none =>
        match fr.outer with
        | some o => findPairF st fuel o k
        | Option.none => Option.none

def envFind (st : State) (r : Nat) (k : String) : Option (Nat × LVal) :=
  findPairF st st.frames.length r k

/-- The evaluator's entry check
`env.max_runtime != 0 and time() - env.timestamp > env.max_runtime`:
note that it consults the *current* frame's budget and timestamp, not
the root's. -/
def timedOut (st : State) (r : Nat) (now : Nat) : Bool :=
  match st.getFrame r with
  | some fr => fr.max_runtime ≠ 0 && now - fr.timestamp > fr.max_runtime
  | Option.none => false

/-- Outer links point strictly downwards: true of every state reachable
from `initState` (frames are only ever appended, with an existing frame
as outer), assumed explicitly where theorems quantify over states. -/
def wfStateB (st : State) : Bool :=
  (List.range st.frames.length).all (fun j =>
    match st.frames[j]? with
    | some fr =>
      match fr.outer with
      | some o => decide (o < j)
      | Option.none => true
    | Option.none => true)

/-! ## Python value helpers -/

/-- Python type name, as used inside error messages. -/
def pyTypeName : LVal → String
  | .int _ => "int"
  | .float _ => "float"
  | .bool _ => "bool"
  | .str _ => "str"
  | .list _ => "list"
  | .proc _ _ _ => "Procedure"
  | .prim _ => "builtin_function_or_method"
  | .structCheck _ => "function"
  | .structPos => "function"
  | .none => "NoneType"
  | .err _ => "Exception"

/-! `pyRepr` models `repr()`.  String repr does not model Python's
escaping; `Procedure`/builtin reprs elide the memory address Python would
print (not statable); neither is observed by any claim. -/
mutual

def pyRepr : LVal → String
  | .int n => toString n
  | .float lit => lit
  | .bool b => if b then "True" else "False"
  | .str s => "\x27" ++ s ++ "\x27"
  | .proc _ _ _ => "<Procedure object>"
  | .prim n => "<built-in function " ++ n ++ ">"
  | .structCheck n => "<function check-" ++ n ++ ">"
  | .structPos => "<function pos>"
  | .none => "None"
  | .err e => "Exception(\x27" ++ e.msg ++ "\x27)"
  | .list xs => "[" ++ pyReprList xs ++ "]"
def pyReprList : List LVal → String
  | [] => ""
  | [x] => pyRepr x
  | x :: xs => pyRepr x ++ ", " ++ pyReprList xs
end

/-- `str()`: differs from `repr()` on strings (no quotes) and exception
objects (`str(e)` is the message). -/
def pyStr (v : LVal) : String :=
  match v with
  | .str s => s
  | .err e => e.msg
  | v => pyRepr v

/-- numeric view: Python `bool` is an `int` subtype. -/
def toIntNum : LVal → Option Int
  | .int n => some n
  | .bool b => some (if b then 1 else 0)
  | _ => Option.none

/-! `pyEq` models Python `==`.  `int`/`bool` compare numerically
(`True == 1`); floats compare by literal text (their value semantics is
not modelled; no claim compares floats); objects compared by identity in
Python (procedures, exceptions) compare unequal here. -/
mutual
def pyEq : LVal → LVal → Bool
  | .str a, .str b => a = b
  | .float a, .float b => a = b
  | .none, .none => true
  | .list xs, .list ys => pyEqList xs ys
  | a, b =>
    match toIntNum a, toIntNum b with
    | some x, some y => x = y
    | _, _ => false
def pyEqList : List LVal → List LVal → Bool
  | [], [] => true
  | x :: xs, y :: ys => pyEq x y && pyEqList xs ys
  | _, _ => false
end

/-- Python truthiness.  A float literal is truthy when it has a nonzero
digit (approximating nonzero value; no claim branches on a float). -/
def pyTruthy : LVal → Bool
  | .int n => n ≠ 0
  | .bool b => b
  | .str s => s ≠ ""
  | .list xs => !xs.isEmpty
  | .float lit => lit.data.any (fun c => '1' ≤ c && c ≤ '9')
  | .none => false
  | _ => true

/-- `len()`. -/
def pyLen : LVal → Except LErr Int
  | .list xs => .ok (xs.length : Int)
  | .str s => .ok (s.length : Int)
  | v => .error (.typeErr ("object of type " ++ pyTypeName v ++ " has no len()"))

/-- list subscript with Python negative-index semantics. -/
def pyListIndex (xs : List LVal) (i : Int) : Except LErr LVal :=
  let j : Int := if i < 0 then i + xs.length else i
  if 0 ≤ j then
    match xs[j.toNat]? with
    | some v => .ok v
    | Option.none => .error (.idxErr "list index out of range")
  else .error (.idxErr "list index out of range")

/-- string subscript: yields a one-character string. -/
def pyStrIndex (s : String) (i : Int) : Except LErr LVal :=
  let cs := s.data
  let j : Int := if i < 0 then i + cs.length else i
  if 0 ≤ j then
    match cs[j.toNat]? with
    | some c => .ok (.str (String.mk [c]))
    | Option.none => .error (.idxErr "string index out of range")
  else .error (.idxErr "string index out of range")

/-- `container[index]`. -/
def pyIndexVal (v : LVal) (i : LVal) : Except LErr LVal :=
  match v with
  | .list xs =>
    match toIntNum i with
    | some n => pyListIndex xs n
    | Option.none =>
      .error (.typeErr ("list indices must be integers or slices, not " ++ pyTypeName i))
  | .str s =>
    match toIntNum i with
    | some n => pyStrIndex s n
    | Option.none => .error (.typeErr "string indices must be integers")
  | v => .error (.typeErr (pyTypeName v ++ " object is not subscriptable"))

/-- `_lget(lst, *indexes)`: successive subscripts. -/
def lget (v : LVal) : List LVal → Except LErr LVal
  | [] => .ok v
  | i :: is =>
    match pyIndexVal v i with
    | .ok v' => lget v' is
    | .error e => .error e

/-- `_lset(lst, val, *indexes)`, captured functionally: returns the
container with the innermost position replaced.  (Python mutates the
list object in place; aliasing between copies is not modelled — no
claim depends on it.)  Assignment requires a list at the final level. -/
def lsetF (nv : LVal) : LVal → List LVal → Except LErr LVal
  | _, [] => .ok nv
  | v, [i] =>
    match v with
    | .list xs =>
      match toIntNum i with
      | some n =>
        let j : Int := if n < 0 then n + xs.length else n
        if 0 ≤ j ∧ j.toNat < xs.length then
          .ok (.list (xs.set j.toNat nv))
        else .error (.idxErr "list assignment index out of range")
      | Option.none =>
        .error (.typeErr ("list indices must be integers or slices, not " ++ pyTypeName i))
    | .str _ => .error (.typeErr "str object does not support item assignment")
    | v => .error (.typeErr (pyTypeName v ++ " object does not support item assignment"))
  | v, i :: is =>
    match pyIndexVal v i with
    | .error e => .error e
    | .ok inner =>
      match lsetF nv inner is with
      | .error e => .error e
      | .ok inner' =>
        -- write the mutated inner container back at position i
        match v with
        | .list xs =>
          match toIntNum i with
          | some n =>
            let j : Int := if n < 0 then n + xs.length else n
            .ok (.list (xs.set j.toNat inner'))
          | Option.none => .error (.typeErr "list indices must be integers")
        | _ => .error (.typeErr "item assignment on non-list")

/-- comparison operators on Python values (ints/bools numerically,
strings lexicographically). -/
def pyCmp (opName : String) (fi : Int → Int → Bool) (fs : String → String → Bool)
    (a b : LVal) : Except LErr Bool :=
  match toIntNum a, toIntNum b with
  | some x, some y => .ok (fi x y)
  | _, _ =>
    match a, b with
    | .str x, .str y => .ok (fs x y)
    | _, _ =>
      .error (.typeErr (opName ++ " not supported between instances of " ++
        pyTypeName a ++ " and " ++ pyTypeName b))

/-- substring test on character lists (Python `sub in s` for strings). -/
def listIsSub (sub : List Char) : List Char → Bool
  | [] => sub.isEmpty
  | c :: cs => sub.isPrefixOf (c :: cs) || listIsSub sub cs

/-- Python `b in a` (`op.contains(a, b)`). -/
def pyContains (container x : LVal) : Except LErr Bool :=
  match container with
  | .list xs => .ok (xs.any (fun e => pyEq x e))
  | .str s =>
    match x with
    | .str sub => .ok (listIsSub sub.data s.data)
    | v => .error (.typeErr ("in <string> requires string as left operand, not " ++ pyTypeName v))
  | v => .error (.typeErr ("argument of type " ++ pyTypeName v ++ " is not iterable"))

/-- Python slice `v[lo:hi]` (never raises for list/str receivers). -/
def pySliceList (xs : List LVal) (lo hi : Option Int) : List LVal :=
  let n : Int := xs.length
  let norm := fun (i : Int) => if i < 0 then max 0 (n + i) else min i n
  let a := (lo.map norm).getD 0
  let b := (hi.map norm).getD n
  (xs.take b.toNat).drop a.toNat

def pySliceVal (v : LVal) (lo hi : Option Int) : Except LErr LVal :=
  match v with
  | .list xs => .ok (.list (pySliceList xs lo hi))
  | .str s =>
    let n : Int := s.length
    let norm := fun (i : Int) => if i < 0 then max 0 (n + i) else min i n
    let a := (lo.map norm).getD 0
    let b := (hi.map norm).getD n
    .ok (.str (String.mk ((s.data.take b.toNat).drop a.toNat)))
  | v => .error (.typeErr (pyTypeName v ++ " object is not subscriptable"))

/-- a slice endpoint must be an integer. -/
def asSliceIdx (v : LVal) : Except LErr Int :=
  match toIntNum v with
  | some n => .ok n
  | Option.none => .error (.typeErr "slice indices must be integers")

/-- `get_args`: split evaluated arguments into positional arguments and
`:keyword value` pairs, scanning from the right as the source does (a
keyword marker consumes the nearest surviving element to its right). -/
def getArgsGo : List LVal → List LVal → List (String × LVal) →
    Except LErr (List LVal × List (String × LVal))
  | [], suffix, pairs => .ok (suffix, pairs)
  | v :: ls, suffix, pairs =>
    match v with
    | .str s =>
      if strStartsWith ":" s then
        match suffix with
        | [] => .error (.ccErr ("supplied argument " ++ s ++ " given without value"))
        | w :: srest => getArgsGo ls srest ((String.mk (s.data.drop 1), w) :: pairs)
      else getArgsGo ls (v :: suffix) pairs
    | _ => getArgsGo ls (v :: suffix) pairs

def getArgs (a : List LVal) : Except LErr (List LVal × List (String × LVal)) :=
  getArgsGo a.reverse [] []

/-! ## `transcode` -/

/-- `str.maketrans(A, B)` followed by a single-character lookup: later
duplicate keys in `A` override earlier ones, as in a dict comprehension,
so the lookup recurses into the tail first. -/
def lookupT : List Char → List Char → Char → Option Char
  | a :: A, b :: B, c =>
    match lookupT A B c with
    | some d => some d
    | Option.none => if c = a then some b else Option.none
  | _, _, _ => Option.none

/-- `string.translate(str.maketrans(A, B))`. -/
def pyTranslate (s : List Char) (A B : List Char) : List Char :=
  s.map (fun c => (lookupT A B c).getD c)

/-- The named-alphabet table of `transcode`'s one-argument form.  Only
`rot13` is carried over from the source's table; the remaining named
alphabets are data with no bearing on any claim (all claims concern the
two-argument form or the length check). -/
def altCodeTable : List (String × String) :=
  [("rot13", "NOPQRSTUVWXYZnopqrstuvwxyzABCDEFGHIJKLMabcdefghijklm")]

def transcodeDefCode : String := "ABCDEFGHIJKLMabcdefghijklmNOPQRSTUVWXYZnopqrstuvwxyz"

/-- `transcode(string, *args)`. -/
def transcodeFn (s : String) (args : List String) : Except LErr String :=
  match args with
  | [] => .ok s
  | [code] =>
    let low := lowerStr code
    if low = "help" then
      .ok ("```\nAVAILABLE TRANSCODINGS:\n" ++
        String.intercalate "\n" (altCodeTable.map (fun p => p.1)) ++ "```")
    else
      match tget (altCodeTable.map (fun p => (p.1, LVal.str p.2))) low with
      | some (.str alt) => .ok (String.mk (pyTranslate s.data transcodeDefCode.data alt.data))
      | _ =>
        .error (.ccErr (low ++ " is not a supported transcoding. Use (transcode " ++
          "\"help\") to get a list of available transcodings."))
  | A :: B :: _ =>
    if A.length ≠ B.length then
      .error (.ccErr "transcode: To and From transcoding patterns must be the same length.")
    else
      .ok (String.mk (pyTranslate s.data A.data B.data))

/-! ## Error wrapping and truncation

`lisp_eval` re-raises any exception from its dispatch as
`CustomCommandSyntaxError(f"({x[0]}): {e}")`, truncating messages longer
than 1500 characters to their trailing `(head): ...` clause first, via
`re.match(r"(?:.+)(\(.+?\): .+?$)", str(e)).group(1)`. -/

/-- scan for `"): "` preceded by at least one character (the regex's lazy
`.+?` between `(` and `): `) and followed by at least one character. -/
def hasMidClose : Nat → List Char → Bool
  | _, [] => false
  | seen, c :: rest =>
    (c = ')' && decide (1 ≤ seen) &&
      (match rest with
       | ':' :: ' ' :: r2 => !r2.isEmpty
       | _ => false)) ||
    hasMidClose (seen + 1) rest

/-- does the suffix starting here match `\(.+?\): .+?$` (no `.` crossing
a newline: the truncation regex is compiled without `re.DOTALL`)? -/
def clauseOK : List Char → Bool
  | '(' :: tail => !(('(' :: tail).any (fun c => c = '\n')) && hasMidClose 0 tail
  | _ => false

/-- positions of `'('` in a character list, counting from `i`. -/
def parenPositionsFrom (i : Nat) : List Char → List Nat
  | [] => []
  | c :: cs =>
    if c = '(' then i :: parenPositionsFrom (i + 1) cs
    else parenPositionsFrom (i + 1) cs

/-- positions of `'('` in a character list. -/
def parenPositions (cs : List Char) : List Nat := parenPositionsFrom 0 cs

/-- `re.match(r"(?:.+)(\(.+?\): .+?$)", s)`'s group 1: the clause at the
last viable `(` strictly after the start (the leading `(?:.+)` consumes
at least one character and backtracks from the right); `$` may consume a
single trailing newline. -/
def lastClause (s : String) : Option String :=
  let cs := s.data
  let core := if cs.getLast? = some '\n' then cs.dropLast else cs
  let ok := (parenPositions core).filter (fun p => decide (1 ≤ p) && clauseOK (core.drop p))
  (ok.getLast?).map (fun p => String.mk (core.drop p))

/-- `f"({x[0]}): {e}"`: the head used for the context prefix.  For a
form it is `str` of the (unevaluated) head; for a symbol it is the
symbol's first character (`x[0]` of a Python string); an empty list or
empty string raises `IndexError` there, caught by the inner
`except IndexError`, which re-raises without a prefix.  Non-subscriptable
`x` (bare literals) never raise, so no other case is reachable. -/
def headForWrap : LVal → Option String
  | .list (h :: _) => some (pyStr h)
  | .list [] => Option.none
  | .str s => if s.data.isEmpty then Option.none else some (String.mk (s.data.take 1))
  | _ => Option.none

/-- The full `except Exception` handler at the bottom of `lisp_eval`:
truncate overlong messages (a failed truncation regex raises
`AttributeError` in the handler itself, replacing the wrapped error),
then prefix with the head. -/
def wrapErr (x : LVal) (e : LErr) : LErr :=
  let m := e.msg
  if m.length > 1500 then
    match lastClause m with
    | some cl =>
      match headForWrap x with
      | some h => .ccErr ("(" ++ h ++ "): " ++ ("..." ++ cl))
      | Option.none => .ccErr ("..." ++ cl)
    | Option.none => .attrErr "NoneType object has no attribute group"
  else
    match headForWrap x with
    | some h => .ccErr ("(" ++ h ++ "): " ++ m)
    | Option.none => .ccErr m

/-! ## Primitive procedures of `standard_env` -/

/-- `op.add`: numeric addition (bools count as ints), string and list
concatenation. -/
def pyAdd (a b : LVal) : Except LErr LVal :=
  match toIntNum a, toIntNum b with
  | some x, some y => .ok (.int (x + y))
  | _, _ =>
    match a, b with
    | .str x, .str y => .ok (.str (x ++ y))
    | .list x, .list y => .ok (.list (x ++ y))
    | _, _ =>
      .error (.typeErr ("unsupported operand type(s) for +: " ++
        pyTypeName a ++ " and " ++ pyTypeName b))

/-- a two-argument integer operator (floats are not modelled). -/
def pyIntBinOp (opName : String) (f : Int → Int → Except LErr Int)
    (a b : LVal) : Except LErr LVal :=
  match toIntNum a, toIntNum b with
  | some x, some y => (f x y).map .int
  | _, _ =>
    .error (.typeErr ("unsupported operand type(s) for " ++ opName ++ ": " ++
      pyTypeName a ++ " and " ++ pyTypeName b))

/-- insertion sort with a Boolean `le` (for the `sort` primitive on
integer lists). -/
def insertLe (le : Int → Int → Bool) (x : Int) : List Int → List Int
  | [] => [x]
  | y :: ys => if le x y then x :: y :: ys else y :: insertLe le x ys

def sortInts : List Int → List Int
  | [] => []
  | x :: xs => insertLe (fun a b => a ≤ b) x (sortInts xs)

/-- view a value list as integers (bools coerced), for `sum`/`max`/... -/
def asIntList : List LVal → Option (List Int)
  | [] => some []
  | v :: vs =>
    match toIntNum v, asIntList vs with
    | some n, some ns => some (n :: ns)
    | _, _ => Option.none

/-- `list(x)` / `tolist`: iterate a list (copy) or a string (one-char
strings). -/
def pyToList (v : LVal) : Except LErr LVal :=
  match v with
  | .list xs => .ok (.list xs)
  | .str s => .ok (.list (s.data.map (fun c => .str (String.mk [c]))))
  | v => .error (.typeErr (pyTypeName v ++ " object is not iterable"))

/-- `range(...)`, realised eagerly as a list of ints (Python returns a
lazy range object; no claim distinguishes the two). -/
def rangeList (lo hi step : Int) : List Int :=
  if 0 < step then
    (List.range (((hi - lo) + step - 1) / step).toNat).map (fun k => lo + step * k)
  else
    (List.range (((lo - hi) + (-step) - 1) / (-step)).toNat).map (fun k => lo + step * k)

/-- `_assert(var, vartype, *opt)`. -/
def pyAssert (var vartype : LVal) (opt : List LVal) : Except LErr LVal :=
  let fallback := fun (_e : LErr) =>
    match opt with
    | o :: _ => Except.ok o
    | [] =>
      Except.error (.ccErr ("assertion error: " ++ pyStr var ++ " is not a valid " ++
        pyStr vartype))
  match vartype with
  | .str "int" =>
    (match var with
     | .int n => .ok (.int n)
     | .bool b => .ok (.int (if b then 1 else 0))
     | .str s =>
       (match pyIntParse (stripWs s.data) with
        | some n => .ok (.int n)
        | Option.none => fallback (.valErr "invalid literal for int()"))
     | _ => fallback (.typeErr "int() argument must be a string or a number"))
  | .str "float" =>
    (match var with
     | .float lit => .ok (.float lit)
     | .int n => .ok (.float (toString n ++ ".0"))
     | .bool b => .ok (.float (if b then "1.0" else "0.0"))
     | .str s =>
       (if pyFloatAccepts (stripWs s.data) ∨ (pyIntParse (stripWs s.data)).isSome then
          .ok (.float (String.mk (stripWs s.data)))
        else fallback (.valErr "could not convert string to float"))
     | _ => fallback (.typeErr "float() argument must be a string or a number"))
  | .str "list" =>
    -- the source calls `list(*var)`: `var` is star-unpacked, so only a
    -- zero- or one-element list converts; anything else is a TypeError
    (match var with
     | .list [] => .ok (.list [])
     | .list [x] =>
       (match pyToList x with
        | .ok v => .ok v
        | .error e => fallback e)
     | .list _ => fallback (.typeErr "list expected at most 1 argument")
     | _ => .error (.typeErr ("argument after * must be an iterable, not " ++ pyTypeName var)))
  | _ => .ok .none   -- no matching branch: the Python function returns None

/-- `_str(*args)`: no argument returns None, one argument stringifies,
more arguments dispatch a `str` method by name.  Only `upper`/`lower`
are carried in the closed method table; the failure message indexes
`args[1]`, exactly as the source does. -/
def pyStrPrim (args : List LVal) : Except LErr LVal :=
  match args with
  | [] => .ok .none
  | [x] => .ok (.str (pyStr x))
  | m :: a1 :: rest =>
    match m with
    | .str "upper" =>
      (match a1, rest with
       | .str s, [] => .ok (.str (upperStr s))
       | _, _ => .error (.typeErr "descriptor upper requires a str argument"))
    | .str "lower" =>
      (match a1, rest with
       | .str s, [] => .ok (.str (lowerStr s))
       | _, _ => .error (.typeErr "descriptor lower requires a str argument"))
    | _ => .error (.ccErr ("str does not have method " ++ pyStr a1))

/-- The closed method-capability table behind the `>>` access form.  The
source reflects into arbitrary attributes with `getattr`; the spec
directs implementations to restrict this to a closed registered table,
and only string `upper`/`lower` are registered here (no claim invokes a
method). -/
def callMethod (m : String) (target : LVal) (ar : List LVal)
    (kw : List (String × LVal)) : Except LErr LVal :=
  match kw with
  | _ :: _ => .error (.typeErr ("method " ++ m ++ " got an unexpected keyword argument"))
  | [] =>
    match m, target, ar with
    | "upper", .str s, [] => .ok (.str (upperStr s))
    | "lower", .str s, [] => .ok (.str (lowerStr s))
    | _, _, _ => .error (.attrErr ("type object has no attribute " ++ m))

/-- Application of a `standard_env` primitive.  `now` is the model
clock, consulted by `time`.  Primitives whose behaviour no claim
exercises (regular expressions, randomness, time formatting, the
higher-order iterator tools, float division and bitwise xor) are mapped
to a `TypeError`-flavoured failure naming the primitive: any failure is
wrapped identically by the evaluator, so the wrapping behaviour stays
faithful while the unexercised semantics is left out. -/
def applyPrim (now : Nat) (name : String) (args : List LVal) : Except LErr LVal :=
  match name with
  | "+" =>
    (match args with
     | [a, b] => pyAdd a b
     | _ => .error (.typeErr "add expected 2 arguments"))
  | "-" =>
    (match args with
     | [a, b] => pyIntBinOp "-" (fun x y => .ok (x - y)) a b
     | _ => .error (.typeErr "sub expected 2 arguments"))
  | "*" =>
    (match args with
     | [a, b] => pyIntBinOp "*" (fun x y => .ok (x * y)) a b
     | _ => .error (.typeErr "mul expected 2 arguments"))
  | "%" =>
    (match args with
     | [a, b] => pyIntBinOp "%" (fun x y =>
         if y = 0 then .error (.arithErr "integer division or modulo by zero")
         else .ok (Int.fmod x y)) a b
     | _ => .error (.typeErr "mod expected 2 arguments"))
  | "//" =>
    (match args with
     | [a, b] => pyIntBinOp "//" (fun x y =>
         if y = 0 then .error (.arithErr "integer division or modulo by zero")
         else .ok (Int.fdiv x y)) a b
     | _ => .error (.typeErr "floordiv expected 2 arguments"))
  | ">" =>
    (match args with
     | [a, b] => (pyCmp ">" (fun x y => x > y) (fun x y => x > y) a b).map .bool
     | _ => .error (.typeErr "gt expected 2 arguments"))
  | "<" =>
    (match args with
     | [a, b] => (pyCmp "<" (fun x y => x < y) (fun x y => x < y) a b).map .bool
     | _ => .error (.typeErr "lt expected 2 arguments"))
  | ">=" =>
    (match args with
     | [a, b] => (pyCmp ">=" (fun x y => x ≥ y) (fun x y => x ≥ y) a b).map .bool
     | _ => .error (.typeErr "ge expected 2 arguments"))
  | "<=" =>
    (match args with
     | [a, b] => (pyCmp "<=" (fun x y => x ≤ y) (fun x y => x ≤ y) a b).map .bool
     | _ => .error (.typeErr "le expected 2 arguments"))
  | "==" =>
    (match args with
     | [a, b] => .ok (.bool (pyEq a b))
     | _ => .error (.typeErr "eq expected 2 arguments"))
  | "!=" =>
    (match args with
     | [a, b] => .ok (.bool (!pyEq a b))
     | _ => .error (.typeErr "eq expected 2 arguments"))
  | "#" =>
    (match args with
     | [x, y] => pyIndexVal y x
     | _ => .error (.typeErr "getitem expected 2 arguments"))
  | "abs" =>
    (match args with
     | [a] =>
       (match toIntNum a with
        | some n => .ok (.int (Int.natAbs n))
        | Option.none => .error (.typeErr ("bad operand type for abs(): " ++ pyTypeName a)))
     | _ => .error (.typeErr "abs expected 1 argument"))
  | "append" =>
    (match args with
     | [x, y] =>
       (match x with
        | .list _ => .ok .none   -- Python mutates x in place and returns None;
                                 -- the mutation itself is aliasing, not modelled
        | _ => pyAdd x y)
     | _ => .error (.typeErr "append expected 2 arguments"))
  | "do" =>
    (match args.getLast? with
     | some v => .ok v
     | Option.none => .error (.idxErr "tuple index out of range"))
  | "car" =>
    (match args with
     | [x] => pyIndexVal x (.int 0)
     | _ => .error (.typeErr "car expected 1 argument"))
  | "cdr" =>
    (match args with
     | [x] => pySliceVal x (some 1) Option.none
     | _ => .error (.typeErr "cdr expected 1 argument"))
  | "cons" =>
    (match args with
     | [x, .list y] => .ok (.list (x :: y))
     | [_, y] => .error (.typeErr ("can only concatenate list (not " ++ pyTypeName y ++ ") to list"))
     | _ => .error (.typeErr "cons expected 2 arguments"))
  | "is" =>
    -- CPython identity; approximated by value equality on immutable
    -- scalars and falsity elsewhere (no claim uses `is`)
    (match args with
     | [.none, .none] => .ok (.bool true)
     | [.bool a, .bool b] => .ok (.bool (a = b))
     | [.int a, .int b] => .ok (.bool (a = b))
     | [_, _] => .ok (.bool false)
     | _ => .error (.typeErr "is expected 2 arguments"))
  | "in" =>
    (match args with
     | [a, b] => (pyContains a b).map .bool
     | _ => .error (.typeErr "contains expected 2 arguments"))
  | "len" =>
    (match args with
     | [x] => (pyLen x).map .int
     | _ => .error (.typeErr "len expected 1 argument"))
  | "list" | "l" => .ok (.list args)
  | "tolist" | "2l" =>
    (match args with
     | [x] => pyToList x
     | _ => .error (.typeErr "list expected at most 1 argument"))
  | "range" =>
    (match args with
     | [a] =>
       (match toIntNum a with
        | some n => .ok (.list ((rangeList 0 n 1).map .int))
        | _ => .error (.typeErr "range arg must be int"))
     | [a, b] =>
       (match toIntNum a, toIntNum b with
        | some x, some y => .ok (.list ((rangeList x y 1).map .int))
        | _, _ => .error (.typeErr "range arg must be int"))
     | [a, b, c] =>
       (match toIntNum a, toIntNum b, toIntNum c with
        | some x, some y, some z =>
          if z = 0 then .error (.valErr "range() arg 3 must not be zero")
          else .ok (.list ((rangeList x y z).map .int))
        | _, _, _ => .error (.typeErr "range arg must be int"))
     | _ => .error (.typeErr "range expected 1 to 3 arguments"))
  | "list?" =>
    (match args with
     | [.list _] => .ok (.bool true)
     | [_] => .ok (.bool false)
     | _ => .error (.typeErr "list? expected 1 argument"))
  | "sum" =>
    (match args with
     | [.list xs] =>
       (match asIntList xs with
        | some ns => .ok (.int (ns.foldl (fun a b => a + b) 0))
        | Option.none => .error (.typeErr "unsupported operand type(s) for +"))
     | [_] => .error (.typeErr "sum arg is not iterable")
     | _ => .error (.typeErr "sum expected 1 argument"))
  | "max" | "min" =>
    (match args with
     | [.list xs] =>
       (match asIntList xs with
        | some [] => .error (.valErr (name ++ "() arg is an empty sequence"))
        | some (n :: ns) =>
          .ok (.int (ns.foldl (fun a b => if name = "max" then max a b else min a b) n))
        | Option.none => .error (.typeErr (name ++ " on non-int values is not modelled")))
     | _ =>
       (match asIntList args with
        | some (n :: ns) =>
          .ok (.int (ns.foldl (fun a b => if name = "max" then max a b else min a b) n))
        | _ => .error (.typeErr (name ++ " on non-int values is not modelled"))))
  | "sort" =>
    (match args with
     | [.list xs] =>
       (match asIntList xs with
        | some ns => .ok (.list ((sortInts ns).map .int))
        | Option.none => .error (.typeErr "sort on non-int values is not modelled"))
     | _ => .error (.typeErr "sorted expected 1 argument"))
  | "reverse" =>
    (match args with
     | [.list xs] => .ok (.list xs.reverse)
     | [.str s] => .ok (.str (String.mk s.data.reverse))
     | [_] => .error (.typeErr "reverse arg is not subscriptable")
     | _ => .error (.typeErr "reverse expected 1 argument"))
  | "pass" => .ok .none
  | "not" =>
    (match args with
     | [x] => .ok (.bool (!pyTruthy x))
     | _ => .error (.typeErr "not_ expected 1 argument"))
  | "null?" =>
    (match args with
     | [x] => .ok (.bool (pyEq x (.list [])))
     | _ => .error (.typeErr "null? expected 1 argument"))
  | "number?" =>
    (match args with
     | [.int _] | [.float _] | [.bool _] => .ok (.bool true)
     | [_] => .ok (.bool false)
     | _ => .error (.typeErr "number? expected 1 argument"))
  | "procedure?" =>
    (match args with
     | [.proc _ _ _] | [.prim _] | [.structCheck _] | [.structPos] => .ok (.bool true)
     | [_] => .ok (.bool false)
     | _ => .error (.typeErr "callable expected 1 argument"))
  | "round" =>
    (match args with
     | [.int n] => .ok (.int n)
     | [.bool b] => .ok (.int (if b then 1 else 0))
     | _ => .error (.typeErr "round on non-int values is not modelled"))
  | "symbol?" =>
    (match args with
     | [.str _] => .ok (.bool true)
     | [_] => .ok (.bool false)
     | _ => .error (.typeErr "symbol? expected 1 argument"))
  | "assert" =>
    (match args with
     | var :: vartype :: opt => pyAssert var vartype opt
     | _ => .error (.typeErr "_assert missing required arguments"))
  | "f" => .ok (.str (String.join (args.map pyStr)))
  | "int" =>
    (match args with
     | [] => .ok (.int 0)
     | [.int n] => .ok (.int n)
     | [.bool b] => .ok (.int (if b then 1 else 0))
     | [.str s] =>
       (match pyIntParse (stripWs s.data) with
        | some n => .ok (.int n)
        | Option.none =>
          .error (.valErr ("invalid literal for int() with base 10: " ++ s)))
     | [v] => .error (.typeErr ("int() conversion from " ++ pyTypeName v ++ " is not modelled"))
     | _ => .error (.typeErr "int expected at most 2 arguments"))
  | "float" =>
    (match args with
     | [] => .ok (.float "0.0")
     | [.float lit] => .ok (.float lit)
     | [.int n] => .ok (.float (toString n ++ ".0"))
     | [.bool b] => .ok (.float (if b then "1.0" else "0.0"))
     | [.str s] =>
       (if pyFloatAccepts (stripWs s.data) ∨ (pyIntParse (stripWs s.data)).isSome then
          .ok (.float (String.mk (stripWs s.data)))
        else .error (.valErr ("could not convert string to float: " ++ s)))
     | _ => .error (.typeErr "float expected at most 1 argument"))
  | "str" => pyStrPrim args
  | "transcode" =>
    (match args with
     | .str s :: rest =>
       (match rest.mapM (fun v => match v with | .str t => some t | _ => Option.none) with
        | some codes => (transcodeFn s codes).map .str
        | Option.none => .error (.typeErr "maketrans arguments must be strings"))
     | _ :: _ => .error (.typeErr "transcode first argument must be str")
     | [] => .error (.typeErr "transcode missing required argument"))
  | "time" => .ok (.int now)
  | _ =>
    .error (.typeErr ("primitive " ++ name ++ " is not modelled in this embedding"))

/-! ## The evaluator

`lisp_eval(x, env)` is modelled by `lisp_eval fuel st now r x`: `fuel`
bounds the recursion depth (one unit per evaluator entry), `st` is the
frame heap, `now` the model clock, `r` the current environment's frame
reference.  The clock advances by one at each entry, standing for the
`time()` call of the entry check.  The dispatch body (everything inside
the `try:`) and the loop/argument helpers are written as separate
definitions parameterised by the recursive evaluator, so that the whole
development is structurally recursive on `fuel`. -/

/-- the head test `x[0] == "name"` (Python `==` between the unevaluated
head and a string literal: only a `str` head can compare equal). -/
def isHead (h : LVal) (s : String) : Bool :=
  match h with
  | .str t => t = s
  | _ => false

/-- `x.isdigit()` on a Python string. -/
def pyIsDigitStr (p : String) : Bool :=
  !p.data.isEmpty && p.data.all Char.isDigit

def natOfDigits (p : String) : Nat :=
  p.data.foldl (fun a c => a * 10 + (c.toNat - '0'.toNat)) 0

/-- the Python tuple-unpacking `ValueError` messages. -/
def unpackErr (expected got : Nat) : LErr :=
  if got < expected then
    .valErr ("not enough values to unpack (expected " ++ toString expected ++
      ", got " ++ toString got ++ ")")
  else
    .valErr ("too many values to unpack (expected " ++ toString expected ++ ")")

/-- The type of the recursive evaluator handed to the dispatch helpers:
state, clock, environment reference, expression. -/
abbrev Evaluator := State → Nat → Nat → LVal → Res LVal

/-- evaluate a list of expressions left-to-right, threading heap and
clock (the argument comprehensions of the source). -/
def evalArgsWith (ev : Evaluator) (st : State) (now : Nat) (r : Nat) :
    List LVal → Res (List LVal)
  | [] => .ok [] st now
  | x :: xs =>
    match ev st now r x with
    | .ok v st' now' =>
      match evalArgsWith ev st' now' r xs with
      | .ok vs st'' now'' => .ok (v :: vs) st'' now''
      | .err e st'' now'' => .err e st'' now''
      | .spin => .spin
    | .err e st' now' => .err e st' now'
    | .spin => .spin

/-- the `:index` suffix list of a symbol:
`[int(x) if x.isdigit() else lisp_eval(x, env) for x in ind]`. -/
def evalIdxPartsWith (ev : Evaluator) (st : State) (now : Nat) (r : Nat) :
    List String → Res (List LVal)
  | [] => .ok [] st now
  | p :: ps =>
    if pyIsDigitStr p then
      match evalIdxPartsWith ev st now r ps with
      | .ok vs st' now' => .ok (.int (natOfDigits p) :: vs) st' now'
      | .err e st' now' => .err e st' now'
      | .spin => .spin
    else
      match ev st now r (.str p) with
      | .ok v st' now' =>
        match evalIdxPartsWith ev st' now' r ps with
        | .ok vs st'' now'' => .ok (v :: vs) st'' now''
        | .err e st'' now'' => .err e st'' now''
        | .spin => .spin
      | .err e st' now' => .err e st' now'
      | .spin => .spin

/-- the variable-reference branch: split the symbol on `:`, evaluate the
index parts, chain-look-up the base name, then apply the subscripts. -/
def evalSymbolWith (ev : Evaluator) (st : State) (now : Nat) (r : Nat)
    (s : String) : Res LVal :=
  match splitColon s with
  | [] => .err (.ccErr "undefined var ") st now   -- unreachable: splitOn is never empty
  | l :: indParts =>
    match evalIdxPartsWith ev st now r indParts with
    | .ok ivals st' now' =>
      match envFind st' r l with
      | Option.none => .err (.ccErr ("undefined var " ++ l)) st' now'
      | some (_, v) =>
        match lget v ivals with
        | .ok w => .ok w st' now'
        | .error e => .err e st' now'
    | .err e st' now' => .err e st' now'
    | .spin => .spin

/-- `dict(zip(parms, args))` for a procedure call frame: string keys
bind, a list key is unhashable, other keys are hashable in Python but
unreachable by any lookup (modelled as absent). -/
def buildFrameTableGo (acc : List (String × LVal)) :
    List (LVal × LVal) → Except LErr (List (String × LVal))
  | [] => .ok acc
  | (p, a) :: rest =>
    match p with
    | .str s => buildFrameTableGo (tset acc s a) rest
    | .list _ => .error (.typeErr "unhashable type: list")
    | _ => buildFrameTableGo acc rest

/-- the parameter spec accepted by `zip`: a list, or a string (iterated
character by character). -/
def parmKeys : LVal → Except LErr (List LVal)
  | .list ps => .ok ps
  | .str s => .ok (s.data.map (fun c => .str (String.mk [c])))
  | v => .error (.typeErr ("zip argument #1 must support iteration, not " ++ pyTypeName v))

/-- `Procedure.__call__` / application of any evaluated head.  A
procedure call builds a fresh frame binding parameters positionally
(`Env(parms, args, outer=self.env)`: timestamp `now`, budget `0`), chains
it to the captured environment, and evaluates the body there.  The
struct `check` closure evaluates its `make-` marker in the *module
global* environment — frame `0` — mirroring `lisp_eval(create)`'s
defaulted `env=global_env`. -/
def applyCallableWith (ev : Evaluator) (st : State) (now : Nat)
    (f : LVal) (args : List LVal) : Res LVal :=
  match f with
  | .proc parms body cenv =>
    (match parmKeys parms with
     | .error e => .err e st now
     | .ok ps =>
       match buildFrameTableGo [] (ps.zip args) with
       | .error e => .err e st now
       | .ok tbl =>
         let fr : Frame := ⟨tbl, some cenv, now, 0⟩
         let newRef := st.frames.length
         ev ⟨st.frames ++ [fr]⟩ now newRef body)
  | .prim name =>
    (match applyPrim now name args with
     | .ok v => .ok v st now
     | .error e => .err e st now)
  | .structCheck name =>
    (match args with
     | [arr] =>
       (match pyLen arr with
        | .error e => .err e st now
        | .ok n =>
          match ev st now 0 (.str ("make-" ++ name)) with
          | .ok v st' now' => .ok (.bool (pyEq (.int n) v)) st' now'
          | .err e st' now' => .err e st' now'
          | .spin => .spin)
     | _ => .err (.typeErr "check takes 1 positional argument") st now)
  | .structPos =>
    (match args with
     | [arr, i] =>
       (match pyIndexVal arr i with
        | .ok v => .ok v st now
        | .error e => .err e st now)
     | _ => .err (.typeErr "pos takes 2 positional arguments") st now)
  | f => .err (.typeErr (pyTypeName f ++ " object is not callable")) st now

/-- the `while` loop: `while lisp_eval(x[1], env): lisp_eval(x[2], env)`.
One fuel unit per iteration.  The body expression `x[2]` is only read
once the test is truthy, so a missing body raises `IndexError` only
then. -/
def evalWhileWith (ev : Evaluator) : Nat → State → Nat → Nat → LVal → Option LVal → Res LVal
  | 0, _, _, _, _, _ => .spin
  | wfuel+1, st, now, r, test, body? =>
    match ev st now r test with
    | .ok tv st1 now1 =>
      if pyTruthy tv then
        match body? with
        | Option.none => .err (.idxErr "list index out of range") st1 now1
        | some body =>
          match ev st1 now1 r body with
          | .ok _ st2 now2 => evalWhileWith ev wfuel st2 now2 r test body?
          | .err e st2 now2 => .err e st2 now2
          | .spin => .spin
      else .ok .none st1 now1
    | .err e st1 now1 => .err e st1 now1
    | .spin => .spin

/-- struct field names must all be strings (they are concatenated into
binding keys). -/
def strsOf : List LVal → Except LErr (List String)
  | [] => .ok []
  | .str s :: tl => (strsOf tl).map (fun ts => s :: ts)
  | v :: _ => .error (.typeErr ("can only concatenate str (not " ++ pyTypeName v ++ ") to str"))

/-- the `param` argument of `make_functions` is iterated: a list of
names, or a string (iterated character by character). -/
def parmsAsStrs : LVal → Except LErr (List String)
  | .list ps => strsOf ps
  | .str s => .ok (s.data.map (fun c => String.mk [c]))
  | v => .error (.typeErr (pyTypeName v ++ " object is not iterable"))

/-- `make_functions(name, param, env)`: install positional-key markers,
the `-pos` accessor, the `name?` predicate and the `make-name` arity
marker into the frame at `r`. -/
def makeFunctions (st : State) (r : Nat) (name params : LVal) : Except LErr State :=
  match name with
  | .str nm =>
    (match parmsAsStrs params with
     | .error e => .error e
     | .ok pars =>
       let st1 := (pars.enum).foldl
         (fun acc p => acc.setVar r (nm ++ "-" ++ p.2 ++ "-pos") (.int p.1)) st
       let st2 := st1.setVar r (nm ++ "-pos") .structPos
       let st3 := st2.setVar r (nm ++ "?") (.structCheck nm)
       .ok (st3.setVar r ("make-" ++ nm) (.int pars.length)))
  | v => .error (.typeErr ("can only concatenate str (not " ++ pyTypeName v ++ ") to str"))

/-- The dispatch body of `lisp_eval` — everything inside its `try:`
block, in source order.  `wfuel` bounds `while` iterations only. -/
def evalBodyWith (ev : Evaluator) (wfuel : Nat) (st : State) (now : Nat)
    (r : Nat) : LVal → Res LVal
  | .str s => evalSymbolWith ev st now r s
  | .list [] =>
    -- `x[0] == _args` on an empty form raises IndexError at once
    .err (.idxErr "list index out of range") st now
  | .list (h :: rest) =>
    if isHead h "args" then
      match envFind st r "argstring" with
      | Option.none => .err (.ccErr "undefined var argstring") st now
      | some (_, argstring) =>
        match envFind st r "args" with
        | Option.none => .err (.ccErr "undefined var args") st now
        | some (_, arglist) =>
          match rest with
          | [] => .ok argstring st now
          | [a1] =>
            if isHead a1 "*" then .ok arglist st now
            else
              (match pyIndexVal arglist a1 with
               | .ok v => .ok v st now
               | .error (.idxErr _) => .ok .none st now    -- swallowed, returns None
               | .error e => .err e st now)
          | a1 :: a2 :: _ =>
            if isHead a1 "*" then
              (match asSliceIdx a2 with
               | .ok n =>
                 (match pySliceVal arglist Option.none (some n) with
                  | .ok v => .ok v st now
                  | .error e => .err e st now)
               | .error e => .err e st now)
            else if isHead a2 "*" then
              (match asSliceIdx a1 with
               | .ok n =>
                 (match pySliceVal arglist (some n) Option.none with
                  | .ok v => .ok v st now
                  | .error e => .err e st now)
               | .error e => .err e st now)
            else
              (match asSliceIdx a1, asSliceIdx a2 with
               | .ok n1, .ok n2 =>
                 (match pySliceVal arglist (some n1) (some n2) with
                  | .ok v => .ok v st now
                  | .error e => .err e st now)
               | .error e, _ => .err e st now
               | _, .error e => .err e st now)
    else if isHead h "quote" then
      match rest with
      | [e] => .ok e st now
      | _ => .err (unpackErr 2 (rest.length + 1)) st now
    else if isHead h ">>" then
      match evalArgsWith ev st now r rest with
      | .ok a st' now' =>
        (match getArgs (a.drop 2) with
         | .error e => .err e st' now'
         | .ok (ar, kw) =>
           match (a[1]? : Option LVal) with
           | Option.none => .err (.idxErr "list index out of range") st' now'
           | some target =>
             match (a[0]? : Option LVal) with
             | Option.none => .err (.idxErr "list index out of range") st' now'
             | some (.str m) =>
               (match callMethod m target ar kw with
                | .ok v => .ok v st' now'
                | .error (.attrErr _) =>
                  .err (.ccErr ("<class \x27" ++ pyTypeName target ++ "\x27> has no method " ++ m)) st' now'
                | .error e => .err e st' now')
             | some _ => .err (.typeErr "attribute name must be string") st' now')
      | .err e st' now' => .err e st' now'
      | .spin => .spin
    else if isHead h "if" then
      match rest with
      | [test, conseq, alt] =>
        (match ev st now r test with
         | .ok tv st' now' => ev st' now' r (if pyTruthy tv then conseq else alt)
         | .err e st' now' => .err e st' now'
         | .spin => .spin)
      | _ => .err (unpackErr 4 (rest.length + 1)) st now
    else if isHead h "define" || isHead h "def" then
      match rest with
      | [var, exp] =>
        (match ev st now r exp with
         | .ok v st' now' =>
           (match var with
            | .str s => .ok .none (st'.setVar r s v) now'
            | .list _ => .err (.typeErr "unhashable type: list") st' now'
            | _ => .ok .none st' now')   -- a non-string hashable key: stored
                                         -- in Python, unreachable by lookup
         | .err e st' now' => .err e st' now'
         | .spin => .spin)
      | _ => .err (unpackErr 3 (rest.length + 1)) st now
    else if isHead h ":=" then
      match rest with
      | [var, exp] =>
        (match var with
         | .str s =>
           if s.data.contains ':' then
             match splitColon s with
             | [] => .err (.ccErr "undefined var ") st now    -- unreachable
             | l :: indParts =>
               (match evalIdxPartsWith ev st now r indParts with
                | .ok ivals st1 now1 =>
                  (match envFind st1 r l with
                   | Option.none => .err (.ccErr ("undefined var " ++ l)) st1 now1
                   | some (j, oldv) =>
                     match ev st1 now1 r exp with
                     | .ok v st2 now2 =>
                       (match lsetF v oldv ivals with
                        | .ok newv => .ok .none (st2.setVar j l newv) now2
                        | .error e => .err e st2 now2)
                     | .err e st2 now2 => .err e st2 now2
                     | .spin => .spin)
                | .err e st1 now1 => .err e st1 now1
                | .spin => .spin)
           else
             match ev st now r exp with     -- the right-hand side first,
             | .ok v st1 now1 =>            -- then `env.find(var)[var] = ...`
               (match envFind st1 r s with
                | Option.none => .err (.ccErr ("undefined var " ++ s)) st1 now1
                | some (j, _) => .ok .none (st1.setVar j s v) now1)
             | .err e st1 now1 => .err e st1 now1
             | .spin => .spin
         | v => .err (.typeErr ("argument of type " ++ pyTypeName v ++ " is not iterable")) st now)
      | _ => .err (unpackErr 3 (rest.length + 1)) st now
    else if isHead h "lambda" then
      match rest with
      | [parms, body] => .ok (.proc parms body r) st now
      | _ => .err (unpackErr 3 (rest.length + 1)) st now
    else if isHead h "check-expect" then
      match rest with
      | [a, b] =>
        (match ev st now r a with
         | .ok va st1 now1 =>
           (match ev st1 now1 r b with
            | .ok vb st2 now2 => .ok (.bool (pyEq va vb)) st2 now2
            | .err e st2 now2 => .err e st2 now2
            | .spin => .spin)
         | .err e st1 now1 => .err e st1 now1
         | .spin => .spin)
      | _ => .err (unpackErr 3 (rest.length + 1)) st now
    else if isHead h "check-within" then
      match rest with
      | [v0, lo, hi] =>
        (match ev st now r v0 with
         | .ok v1 st1 now1 =>
           (match ev st1 now1 r hi with
            | .ok h1 st2 now2 =>
              (match pyCmp "<=" (fun x y => x ≤ y) (fun x y => x ≤ y) v1 h1 with
               | .error e => .err e st2 now2
               | .ok false => .ok (.bool false) st2 now2
               | .ok true =>
                 match ev st2 now2 r v0 with    -- the value is evaluated twice
                 | .ok v2 st3 now3 =>
                   (match ev st3 now3 r lo with
                    | .ok l1 st4 now4 =>
                      (match pyCmp ">=" (fun x y => x ≥ y) (fun x y => x ≥ y) v2 l1 with
                       | .ok b => .ok (.bool b) st4 now4
                       | .error e => .err e st4 now4)
                    | .err e st4 now4 => .err e st4 now4
                    | .spin => .spin)
                 | .err e st3 now3 => .err e st3 now3
                 | .spin => .spin)
            | .err e st2 now2 => .err e st2 now2
            | .spin => .spin)
         | .err e st1 now1 => .err e st1 now1
         | .spin => .spin)
      | _ => .err (unpackErr 4 (rest.length + 1)) st now
    else if isHead h "member?" then
      match rest with
      | [v0, lst] =>
        (match ev st now r v0 with
         | .ok vv st1 now1 =>
           (match ev st1 now1 r lst with
            | .ok lv st2 now2 =>
              (match pyContains lv vv with
               | .ok b => .ok (.bool b) st2 now2
               | .error e => .err e st2 now2)
            | .err e st2 now2 => .err e st2 now2
            | .spin => .spin)
         | .err e st1 now1 => .err e st1 now1
         | .spin => .spin)
      | _ => .err (unpackErr 3 (rest.length + 1)) st now
    else if isHead h "struct" then
      match rest with
      | [name, params] =>
        (match makeFunctions st r name params with
         | .ok st' => .ok .none st' now
         | .error e => .err e st now)
      | _ => .err (unpackErr 3 (rest.length + 1)) st now
    else if isHead h "while" then
      match rest with
      | test :: more => evalWhileWith ev wfuel st now r test more.head?
      | [] => .err (.idxErr "list index out of range") st now
    else if isHead h "print" then
      match envFind st r "output" with
      | Option.none => .err (.ccErr "undefined var output") st now
      | some (j, cur) =>
        match evalArgsWith ev st now r rest with
        | .ok vs st' now' =>
          let line := String.intercalate " " (vs.map pyStr) ++ "\n"
          (match cur with
           | .str o => .ok .none (st'.setVar j "output" (.str (o ++ line))) now'
           | v => .err (.typeErr ("unsupported operand type(s) for +=: " ++
               pyTypeName v ++ " and str")) st' now')
        | .err e st' now' => .err e st' now'
        | .spin => .spin
    else if isHead h "try" then
      match rest with
      | [] => .err (.valErr "not enough values to unpack (expected at least 1, got 0)") st now
      | expr :: alts =>
        match ev st now r expr with
        | .ok v st' now' => .ok v st' now'
        | .err e st' now' =>
          (match alts with
           | a :: _ => ev st' now' r a
           | [] => .ok (.err e) st' now')
        | .spin => .spin
    else if isHead h "unquote" then
      match rest with
      | e1 :: _ =>
        (match ev st now r e1 with
         | .ok v st' now' => ev st' now' r v
         | .err e st' now' => .err e st' now'
         | .spin => .spin)
      | [] => .err (.idxErr "list index out of range") st now
    else
      -- procedure call, with the `make-` constructor special case
      match ev st now r h with
      | .ok p st1 now1 =>
        if (match h with | .str s => strStartsWith "make-" s | _ => false) then
          match evalArgsWith ev st1 now1 r (rest.drop 1) with
          | .ok args st2 now2 =>
            if (match p with | .int n => ((args.length : Int) = n : Bool) | _ => false) then
              match rest with
              | [] => .err (.idxErr "list index out of range") st2 now2
              | v1 :: _ =>
                (match v1 with
                 | .str s => .ok .none (st2.setVar r s (.list args)) now2
                 | .list _ => .err (.typeErr "unhashable type: list") st2 now2
                 | _ => .ok .none st2 now2)
            else
              -- arity mismatch: the source prints to the process console
              -- (unobservable here) and returns None without binding
              .ok .none st2 now2
          | .err e st2 now2 => .err e st2 now2
          | .spin => .spin
        else
          match evalArgsWith ev st1 now1 r rest with
          | .ok args st2 now2 => applyCallableWith ev st2 now2 p args
          | .err e st2 now2 => .err e st2 now2
          | .spin => .spin
      | .err e st1 now1 => .err e st1 now1
      | .spin => .spin
  | x => .ok x st now   -- constant literal (non-symbol, non-list)

/-- `lisp_eval(x, env)`.  The clock ticks at entry; the entry check
raises the timeout error *before* the `try:` (so it is never wrapped at
its own level); every exception from the dispatch is wrapped by
`wrapErr`. -/
def lisp_eval : Nat → State → Nat → Nat → LVal → Res LVal
  | 0, _, _, _, _ => .spin
  | fuel+1, st, now, r, x =>
    let now1 := now + 1
    if timedOut st r now1 then
      .err (.ccErr "The command ran too long.") st now1
    else
      match evalBodyWith (fun st2 n2 r2 x2 => lisp_eval fuel st2 n2 r2 x2) fuel st now1 r x with
      | .ok v st' now' => .ok v st' now'
      | .err e st' now' => .err (wrapErr x e) st' now'
      | .spin => .spin

/-! ## `standard_env` and the module global environment -/

set_option maxHeartbeats 1000000

/-- The primitive table installed by `standard_env`, in source order.
The `env.update(vars(math))` line is not modelled: the `math` module's
constants and functions are data no claim touches (a program referencing
one sees `undefined var` here instead of a float).  Each callable is a
`prim` carrying its own table key; the placeholder identifiers carry
their literal initial values. -/
def stdTable : List (String × LVal) :=
  [ ("+", .prim "+"), ("-", .prim "-"), ("*", .prim "*"), ("/", .prim "/"),
    ("//", .prim "//"), ("%", .prim "%"),
    (">", .prim ">"), ("<", .prim "<"), (">=", .prim ">="), ("<=", .prim "<="),
    ("==", .prim "=="), ("<>", .prim "<>"),
    ("!=", .prim "!="),
    ("#", .prim "#"),
    ("abs", .prim "abs"),
    ("append", .prim "append"),
    ("apply", .prim "apply"),
    ("do", .prim "do"),
    ("car", .prim "car"),
    ("cdr", .prim "cdr"),
    ("cons", .prim "cons"),
    ("is", .prim "is"),
    ("in", .prim "in"),
    ("len", .prim "len"),
    ("list", .prim "list"),
    ("l", .prim "l"),
    ("tolist", .prim "tolist"),
    ("2l", .prim "2l"),
    ("range", .prim "range"),
    ("list?", .prim "list?"),
    ("map", .prim "map"),
    ("imap", .prim "imap"),
    ("sum", .prim "sum"),
    ("max", .prim "max"),
    ("filter", .prim "filter"),
    ("reduce", .prim "reduce"),
    ("sort", .prim "sort"),
    ("reverse", .prim "reverse"),
    ("ireverse", .prim "ireverse"),
    ("pass", .prim "pass"),
    ("min", .prim "min"),
    ("not", .prim "not"),
    ("null?", .prim "null?"),
    ("number?", .prim "number?"),
    ("procedure?", .prim "procedure?"),
    ("round", .prim "round"),
    ("symbol?", .prim "symbol?"),
    ("assert", .prim "assert"),
    ("f", .prim "f"),
    ("int", .prim "int"),
    ("float", .prim "float"),
    ("zip", .prim "zip"),
    ("resub", .prim "resub"),
    ("rematch", .prim "rematch"),
    ("refindall", .prim "refindall"),
    ("str", .prim "str"),
    ("transcode", .prim "transcode"),
    ("randint", .prim "randint"),
    ("choice", .prim "choice"),
    ("eztime", .prim "eztime"),
    ("time", .prim "time"),
    ("ezchoice", .prim "ezchoice"),
    ("username", .str ""),
    ("usernick", .str ""),
    ("usermention", .str ""),
    ("authorname", .str ""),
    ("authornick", .str ""),
    ("argstring", .str ""),
    ("args", .list []),
    ("output", .str "") ]

/-- `global_env = standard_env()`: frame `0`, no outer link, zero budget
(`max_runtime=0`), creation timestamp modelled as `0`. -/
def initState : State := ⟨[⟨stdTable, Option.none, 0, 0⟩]⟩

/-! ## Theorems

The remainder of the file settles the frozen claims against the
embedding above.  Concrete executions are discharged by `rfl`/`decide`;
claims quantifying over environments are proved from the chain-lookup
lemmas below. -/

/-- C1, counterexample.  The claim asserts that `"(+ 1 2))"` — an input
with too many closing parentheses — fails parsing with a SyntaxError
indicating a missing opening bracket.  In fact `parse` reads exactly one
top-level form and silently discards the leftover `)` token, succeeding
with `['+', 1, 2]`. -/
theorem C1_extra_closer_parses : parseStr "(+ 1 2))" =
    .ok (.list [.str "+", .int 1, .int 2]) := by
  rfl

/-- C1, amended.  What the reader actually does on unbalanced input:
too few closing parentheses crash the `while tokens[0] != ')'` loop with
a bare Python `IndexError` (not a `CustomCommandSyntaxError`, and with
no bracket-specific message); too many closing parentheses are ignored
(the first form parses and the trailing `)` is discarded); only a
closing bracket in expression position — e.g. the bare input `")"` —
produces the `CustomCommandSyntaxError "unexpected )"`. -/
theorem C1_amended_unbalanced_behaviour :
    parseStr "(+ 1 2" = .error (.idxErr "list index out of range") ∧
    parseStr "(+ 1 2))" = .ok (.list [.str "+", .int 1, .int 2]) ∧
    parseStr ")" = .error (.ccErr "unexpected )") := by
  exact ⟨rfl, rfl, rfl⟩

/-- C8, counterexample.  The claim asserts every source text containing
an unterminated double-quoted string fails parsing.  The tokenizer's
regex simply produces no token for a `"` with no later `"`, so the quote
character is dropped and `(print "abc)` parses successfully as
`['print', 'abc']`. -/
theorem C8_unterminated_quote_parses : parseStr "(print \"abc)" =
    .ok (.list [.str "print", .str "abc"]) := by
  rfl

/-- C8, amended.  An unterminated quote character is silently skipped by
the tokenizer (it matches no regex alternative); the text after it is
tokenized as bare atoms, and the parse succeeds whenever the brackets
otherwise balance: there is no unterminated-quote parse error. -/
theorem C8_amended_unterminated_quotes_dropped :
    parseStr "\"abc" = .ok (.str "abc") ∧
    parseStr "(print \"abc)" = .ok (.list [.str "print", .str "abc"]) ∧
    (tokenize "(print \"abc)".data).length = 4 := by
  exact ⟨rfl, rfl, rfl⟩

/-! ### Environment-lookup lemmas -/

theorem tget_tset_self (tbl : List (String × LVal)) (k : String) (v : LVal) :
    tget (tset tbl k v) k = some v := by
  induction tbl with
  | nil => simp [tset, tget]
  | cons hd tl ih =>
    by_cases h : hd.1 = k
    · simp [tset, tget, h]
    · simp [tset, tget, h, ih]

theorem tget_tset_ne (tbl : List (String × LVal)) (k k' : String) (v : LVal)
    (h : k' ≠ k) : tget (tset tbl k v) k' = tget tbl k' := by
  induction tbl with
  | nil => simp [tset, tget, Ne.symm h]
  | cons hd tl ih =>
    by_cases hh : hd.1 = k
    · simp [tset, tget, hh, Ne.symm h]
    · simp [tset, tget, hh, ih]

theorem frames_length_setVar (st : State) (r : Nat) (k : String) (v : LVal) :
    (st.setVar r k v).frames.length = st.frames.length := by
  unfold State.setVar
  cases h : st.frames[r]? <;> simp

theorem getFrame_setVar_ne (st : State) (r j : Nat) (k : String) (v : LVal)
    (h : j ≠ r) : (st.setVar r k v).getFrame j = st.getFrame j := by
  unfold State.setVar State.getFrame
  cases hr : st.frames[r]? with
  | none => rfl
  | some fr => simp [List.getElem?_set_ne (Ne.symm h)]

theorem getFrame_setVar_self (st : State) (r : Nat) (k : String) (v : LVal)
    (fr : Frame) (h : st.getFrame r = some fr) :
    (st.setVar r k v).getFrame r = some { fr with table := tset fr.table k v } := by
  unfold State.getFrame at h
  unfold State.setVar State.getFrame
  rw [h]
  have hlt : r < st.frames.length := by
    by_contra hge
    rw [List.getElem?_eq_none (by omega)] at h
    cases h
  simp [List.getElem?_set_self, hlt]

theorem setVar_of_getFrame_none (st : State) (r : Nat) (k : String) (v : LVal)
    (h : st.getFrame r = Option.none) : st.setVar r k v = st := by
  unfold State.getFrame at h
  unfold State.setVar
  rw [h]

theorem findPairF_setVar_ne (st : State) (r : Nat) (k k' : String) (v : LVal)
    (hk : k' ≠ k) :
    ∀ f j, findPairF (st.setVar r k v) f j k' = findPairF st f j k' := by
  intro f
  induction f with
  | zero => intro j; rfl
  | succ f ih =>
    intro j
    unfold findPairF
    by_cases hj : j = r
    · subst hj
      cases hfr : st.getFrame j with
      | none => rw [setVar_of_getFrame_none st j k v hfr]; rw [hfr]
      | some fr =>
        simp only [getFrame_setVar_self st j k v fr hfr, hfr,
          tget_tset_ne fr.table k k' v hk]
        cases tget fr.table k' with
        | some w => rfl
        | none =>
          dsimp only
          cases fr.outer with
          | none => rfl
          | some o => exact ih o
    · rw [getFrame_setVar_ne st r j k v hj]
      cases st.getFrame j with
      | none => rfl
      | some fr =>
        dsimp only
        cases tget fr.table k' with
        | some w => rfl
        | none =>
          dsimp only
          cases fr.outer with
          | none => rfl
          | some o => exact ih o

theorem envFind_setVar_ne (st : State) (r : Nat) (k k' : String) (v : LVal)
    (hk : k' ≠ k) : envFind (st.setVar r k v) j k' = envFind st j k' := by
  unfold envFind
  rw [frames_length_setVar, findPairF_setVar_ne st r k k' v hk]

theorem envFind_setVar_self (st : State) (r : Nat) (k : String) (v : LVal)
    (fr : Frame) (h : st.getFrame r = some fr) :
    envFind (st.setVar r k v) r k = some (r, v) := by
  have hlt : r < st.frames.length := by
    unfold State.getFrame at h
    by_contra hge
    rw [List.getElem?_eq_none (by omega)] at h
    cases h
  unfold envFind
  rw [frames_length_setVar]
  have hlen : ∃ m, st.frames.length = m + 1 := ⟨st.frames.length - 1, by omega⟩
  obtain ⟨m, hm⟩ := hlen
  rw [hm]
  unfold findPairF
  rw [getFrame_setVar_self st r k v fr h]
  simp [tget_tset_self]

theorem timedOut_setVar (st : State) (r j : Nat) (k : String) (v : LVal)
    (now : Nat) : timedOut (st.setVar r k v) j now = timedOut st j now := by
  unfold timedOut
  by_cases hj : j = r
  · subst hj
    cases hfr : st.getFrame j with
    | none => rw [setVar_of_getFrame_none st j k v hfr]; rw [hfr]
    | some fr => simp only [getFrame_setVar_self st j k v fr hfr, hfr]
  · rw [getFrame_setVar_ne st r j k v hj]

theorem findPairF_mono (st : State) :
    ∀ f f' j k p, f ≤ f' → findPairF st f j k = some p →
      findPairF st f' j k = some p := by
  intro f
  induction f with
  | zero => intro f' j k p _ h; cases h
  | succ f ih =>
    intro f' j k p hle h
    obtain ⟨f'', rfl⟩ : ∃ f'', f' = f'' + 1 := ⟨f' - 1, by omega⟩
    unfold findPairF at h ⊢
    cases hfr : st.getFrame j with
    | none => rw [hfr] at h; cases h
    | some fr =>
      rw [hfr] at h
      dsimp only at h ⊢
      cases htg : tget fr.table k with
      | some w => rw [htg] at h; exact h
      | none =>
        rw [htg] at h
        dsimp only at h ⊢
        cases ho : fr.outer with
        | none => rw [ho] at h; cases h
        | some o =>
          rw [ho] at h
          exact ih f'' o k p (by omega) h

/-- outer links of a well-formed state point strictly downwards. -/
theorem wfStateB_outer_lt (st : State) (hwf : wfStateB st = true)
    (j : Nat) (fr : Frame) (hfr : st.getFrame j = some fr)
    (o : Nat) (ho : fr.outer = some o) : o < j := by
  unfold wfStateB at hwf
  rw [List.all_eq_true] at hwf
  have hj : j < st.frames.length := by
    unfold State.getFrame at hfr
    by_contra hge
    rw [List.getElem?_eq_none (by omega)] at hfr
    cases hfr
  have := hwf j (by rw [List.mem_range]; exact hj)
  unfold State.getFrame at hfr
  rw [hfr] at this
  dsimp only at this
  rw [ho] at this
  simpa using this

theorem getFrame_append_lt (st : State) (fr : Frame) (j : Nat)
    (h : j < st.frames.length) :
    (⟨st.frames ++ [fr]⟩ : State).getFrame j = st.getFrame j := by
  unfold State.getFrame
  simp [List.getElem?_append_left h]

theorem getFrame_append_self (st : State) (fr : Frame) :
    (⟨st.frames ++ [fr]⟩ : State).getFrame st.frames.length = some fr := by
  unfold State.getFrame
  simp

/-- pushing a frame does not disturb chain lookups that start below the
old frame count (well-formed outers never point upwards). -/
theorem findPairF_append (st : State) (fr : Frame) (hwf : wfStateB st = true) :
    ∀ f j k, j < st.frames.length →
      findPairF ⟨st.frames ++ [fr]⟩ f j k = findPairF st f j k := by
  intro f
  induction f with
  | zero => intro j k _; rfl
  | succ f ih =>
    intro j k hj
    unfold findPairF
    rw [getFrame_append_lt st fr j hj]
    cases hfr : st.getFrame j with
    | none => rfl
    | some fr' =>
      dsimp only
      cases tget fr'.table k with
      | some w => rfl
      | none =>
        dsimp only
        cases ho : fr'.outer with
        | none => rfl
        | some o =>
          exact ih o k (by
            have := wfStateB_outer_lt st hwf j fr' hfr o ho
            omega)

theorem timedOut_append_lt (st : State) (fr : Frame) (j : Nat) (now : Nat)
    (h : j < st.frames.length) :
    timedOut ⟨st.frames ++ [fr]⟩ j now = timedOut st j now := by
  unfold timedOut
  rw [getFrame_append_lt st fr j h]

/-- a frame with zero budget never trips the entry check. -/
theorem timedOut_zero_budget (st : State) (j : Nat) (now : Nat) (fr : Frame)
    (hfr : st.getFrame j = some fr) (hz : fr.max_runtime = 0) :
    timedOut st j now = false := by
  unfold timedOut
  rw [hfr]
  simp [hz]

/-! ### Small evaluation lemmas -/

theorem lisp_eval_int (f : Nat) (st : State) (now r : Nat) (n : Int)
    (hto : timedOut st r (now + 1) = false) :
    lisp_eval (f + 1) st now r (.int n) = .ok (.int n) st (now + 1) := by
  simp [lisp_eval, evalBodyWith, hto]

theorem lisp_eval_bool (f : Nat) (st : State) (now r : Nat) (b : Bool)
    (hto : timedOut st r (now + 1) = false) :
    lisp_eval (f + 1) st now r (.bool b) = .ok (.bool b) st (now + 1) := by
  simp [lisp_eval, evalBodyWith, hto]

/-- a plain variable reference (no `:` suffix) that resolves. -/
theorem lisp_eval_var (f : Nat) (st : State) (now r : Nat) (s : String)
    (j : Nat) (v : LVal)
    (hto : timedOut st r (now + 1) = false)
    (hsplit : splitColon s = [s])
    (hfind : envFind st r s = some (j, v)) :
    lisp_eval (f + 1) st now r (.str s) = .ok v st (now + 1) := by
  simp [lisp_eval, evalBodyWith, evalSymbolWith, hto, hsplit, hfind,
    evalIdxPartsWith, lget]

/-- C4.  `try` with a failing body: with a supplied alternative the
alternative's value is returned; without one the caught error object is
returned as a value, not re-raised.  `hbody` states that the body fails
(at the clock value the body is given, one tick after entry); `halt`
that the alternative evaluates to `v`. -/
theorem C4_try_semantics
    (f : Nat) (st : State) (now r : Nat) (expr alt : LVal) (e : LErr)
    (st' : State) (now' : Nat) (v : LVal) (st'' : State) (now'' : Nat)
    (hto : timedOut st r (now + 1) = false)
    (hbody : lisp_eval f st (now + 1) r expr = .err e st' now')
    (halt : lisp_eval f st' now' r alt = .ok v st'' now'') :
    lisp_eval (f + 1) st now r (.list [.str "try", expr]) = .ok (.err e) st' now' ∧
    lisp_eval (f + 1) st now r (.list [.str "try", expr, alt]) = .ok v st'' now'' := by
  constructor <;>
    simp [lisp_eval, evalBodyWith, isHead, hto, hbody, halt]

/-- C4, witness: `(try boom 42)` returns `42`, `(try boom)` returns the
caught error as a value. -/
theorem C4_try_semantics_witness :
    lisp_eval 10 initState 0 0 (.list [.str "try", .str "boom"]) =
      .ok (.err (.ccErr "(b): undefined var boom")) initState 2 ∧
    lisp_eval 10 initState 0 0 (.list [.str "try", .str "boom", .int 42]) =
      .ok (.int 42) initState 3 :=
  C4_try_semantics 9 initState 0 0 (.str "boom") (.int 42)
    (.ccErr "(b): undefined var boom") initState 2 (.int 42) initState 3
    rfl rfl rfl

/-! ### Unfolding lemmas for the evaluator (proved by `rfl`) -/

theorem lisp_eval_succ (fuel : Nat) (st : State) (now r : Nat) (x : LVal) :
    lisp_eval (fuel + 1) st now r x =
      (if timedOut st r (now + 1) then
        .err (.ccErr "The command ran too long.") st (now + 1)
      else
        match evalBodyWith (fun st2 n2 r2 x2 => lisp_eval fuel st2 n2 r2 x2)
            fuel st (now + 1) r x with
        | .ok v st' now' => .ok v st' now'
        | .err e st' now' => .err (wrapErr x e) st' now'
        | .spin => .spin) := rfl

theorem evalBody_define (ev : Evaluator) (wfuel : Nat) (st : State)
    (now r : Nat) (var exp : LVal) :
    evalBodyWith ev wfuel st now r (.list [.str "define", var, exp]) =
      (match ev st now r exp with
       | .ok v st' now' =>
         (match var with
          | .str s => .ok .none (st'.setVar r s v) now'
          | .list _ => .err (.typeErr "unhashable type: list") st' now'
          | _ => .ok .none st' now')
       | .err e st' now' => .err e st' now'
       | .spin => .spin) := rfl

/-- the plain (no `:index`) assignment branch, at the concrete name `x`. -/
theorem evalBody_set_x (ev : Evaluator) (wfuel : Nat) (st : State)
    (now r : Nat) (exp : LVal) :
    evalBodyWith ev wfuel st now r (.list [.str ":=", .str "x", exp]) =
      (match ev st now r exp with
       | .ok v st1 now1 =>
         (match envFind st1 r "x" with
          | Option.none => .err (.ccErr "undefined var x") st1 now1
          | some (j, _) => .ok .none (st1.setVar j "x" v) now1)
       | .err e st1 now1 => .err e st1 now1
       | .spin => .spin) := rfl

theorem evalBody_sym (ev : Evaluator) (wfuel : Nat) (st : State)
    (now r : Nat) (s : String) :
    evalBodyWith ev wfuel st now r (.str s) = evalSymbolWith ev st now r s := rfl

theorem evalBody_while (ev : Evaluator) (wfuel : Nat) (st : State)
    (now r : Nat) (test : LVal) (more : List LVal) :
    evalBodyWith ev wfuel st now r (.list (.str "while" :: test :: more)) =
      evalWhileWith ev wfuel st now r test more.head? := rfl

/-- a call whose head is the symbol `+`. -/
theorem evalBody_call_plus (ev : Evaluator) (wfuel : Nat) (st : State)
    (now r : Nat) (rest : List LVal) :
    evalBodyWith ev wfuel st now r (.list (.str "+" :: rest)) =
      (match ev st now r (.str "+") with
       | .ok p st1 now1 =>
         (match evalArgsWith ev st1 now1 r rest with
          | .ok args st2 now2 => applyCallableWith ev st2 now2 p args
          | .err e st2 now2 => .err e st2 now2
          | .spin => .spin)
       | .err e st1 now1 => .err e st1 now1
       | .spin => .spin) := rfl

/-- C2.  In any environment frame (with zero budget, and `+` resolving
to the addition primitive anywhere along its chain), evaluating
`(define x 5)` binds `x` to `5` in the *current* frame `r` itself —
without walking outward — as the final conjunct exhibits on the updated
table; then `(:= x (+ x 1))` mutates the binding found by chain lookup
(here frame `r`, the innermost holding `x`), and a final lookup of `x`
yields `6`. -/
theorem C2_define_then_set_yields_six
    (f : Nat) (st : State) (now r : Nat) (fr : Frame) (jp : Nat)
    (hfr : st.getFrame r = some fr)
    (hrt : fr.max_runtime = 0)
    (hplus : envFind st r "+" = some (jp, .prim "+")) :
    lisp_eval (f + 4) st now r (.list [.str "define", .str "x", .int 5]) =
      .ok .none (st.setVar r "x" (.int 5)) (now + 2) ∧
    lisp_eval (f + 4) (st.setVar r "x" (.int 5)) (now + 2) r
        (.list [.str ":=", .str "x", .list [.str "+", .str "x", .int 1]]) =
      .ok .none ((st.setVar r "x" (.int 5)).setVar r "x" (.int 6)) (now + 7) ∧
    lisp_eval (f + 4) ((st.setVar r "x" (.int 5)).setVar r "x" (.int 6)) (now + 7) r
        (.str "x") =
      .ok (.int 6) ((st.setVar r "x" (.int 5)).setVar r "x" (.int 6)) (now + 8) ∧
    tget ({ fr with table := tset fr.table "x" (.int 5) }).table "x" = some (.int 5) := by
  have hto : ∀ n, timedOut st r n = false := fun n =>
    timedOut_zero_budget st r n fr hfr hrt
  have hfr1 : (st.setVar r "x" (.int 5)).getFrame r =
      some { fr with table := tset fr.table "x" (.int 5) } :=
    getFrame_setVar_self st r "x" (.int 5) fr hfr
  have hto1 : ∀ n, timedOut (st.setVar r "x" (.int 5)) r n = false := fun n => by
    rw [timedOut_setVar]; exact hto n
  have hto2 : ∀ n, timedOut ((st.setVar r "x" (.int 5)).setVar r "x" (.int 6)) r n = false :=
    fun n => by rw [timedOut_setVar, timedOut_setVar]; exact hto n
  have hplus1 : envFind (st.setVar r "x" (.int 5)) r "+" = some (jp, .prim "+") := by
    rw [envFind_setVar_ne st r "x" "+" (.int 5) (by decide)]; exact hplus
  have hfindx : envFind (st.setVar r "x" (.int 5)) r "x" = some (r, .int 5) :=
    envFind_setVar_self st r "x" (.int 5) fr hfr
  have hfindx2 : envFind ((st.setVar r "x" (.int 5)).setVar r "x" (.int 6)) r "x" =
      some (r, .int 6) :=
    envFind_setVar_self (st.setVar r "x" (.int 5)) r "x" (.int 6) _ hfr1
  refine ⟨?_, ?_, ?_, ?_⟩
  · rw [lisp_eval_succ]
    simp only [hto, Bool.false_eq_true, if_false]
    rw [evalBody_define]
    simp only []
    rw [lisp_eval_int (f + 2) st (now + 1) r 5 (hto _)]
  · have hexp : lisp_eval (f + 3) (st.setVar r "x" (.int 5)) (now + 2 + 1) r
        (.list [.str "+", .str "x", .int 1]) =
        .ok (.int 6) (st.setVar r "x" (.int 5)) (now + 7) := by
      rw [lisp_eval_succ]
      simp only [hto1, Bool.false_eq_true, if_false]
      rw [evalBody_call_plus]
      rw [lisp_eval_var (f + 1) _ _ r "+" jp (.prim "+") (hto1 _) rfl hplus1]
      dsimp only
      simp only [evalArgsWith]
      rw [lisp_eval_var (f + 1) _ _ r "x" r (.int 5) (hto1 _) rfl hfindx]
      dsimp only
      rw [lisp_eval_int (f + 1) _ _ r 1 (hto1 _)]
      rfl
    rw [lisp_eval_succ]
    simp only [hto1, Bool.false_eq_true, if_false]
    rw [evalBody_set_x]
    rw [hexp]
    dsimp only
    rw [hfindx]
  · rw [lisp_eval_var (f + 3) _ _ r "x" r (.int 6) (hto2 _) rfl hfindx2]
  · exact tget_tset_self fr.table "x" (.int 5)

/-- C2, witness: the pipeline on the standard global environment. -/
theorem C2_define_then_set_yields_six_witness :
    lisp_eval 10 initState 0 0 (.list [.str "define", .str "x", .int 5]) =
      .ok .none (initState.setVar 0 "x" (.int 5)) 2 ∧
    lisp_eval 10 (initState.setVar 0 "x" (.int 5)) 2 0
        (.list [.str ":=", .str "x", .list [.str "+", .str "x", .int 1]]) =
      .ok .none ((initState.setVar 0 "x" (.int 5)).setVar 0 "x" (.int 6)) 7 ∧
    lisp_eval 10 ((initState.setVar 0 "x" (.int 5)).setVar 0 "x" (.int 6)) 7 0
        (.str "x") =
      .ok (.int 6) ((initState.setVar 0 "x" (.int 5)).setVar 0 "x" (.int 6)) 8 ∧
    tget (tset stdTable "x" (.int 5)) "x" = some (.int 5) :=
  C2_define_then_set_yields_six 6 initState 0 0 ⟨stdTable, Option.none, 0, 0⟩ 0
    rfl rfl rfl

theorem evalBody_lambda (ev : Evaluator) (wfuel : Nat) (st : State)
    (now r : Nat) (parms body : LVal) :
    evalBodyWith ev wfuel st now r (.list [.str "lambda", parms, body]) =
      .ok (.proc parms body r) st now := rfl

/-- a call whose head is itself a form (a non-symbol head skips every
special-form test and the `make-` check). -/
theorem evalBody_call_list (ev : Evaluator) (wfuel : Nat) (st : State)
    (now r : Nat) (hs : List LVal) (rest : List LVal) :
    evalBodyWith ev wfuel st now r (.list (.list hs :: rest)) =
      (match ev st now r (.list hs) with
       | .ok p st1 now1 =>
         (match evalArgsWith ev st1 now1 r rest with
          | .ok args st2 now2 => applyCallableWith ev st2 now2 p args
          | .err e st2 now2 => .err e st2 now2
          | .spin => .spin)
       | .err e st1 now1 => .err e st1 now1
       | .spin => .spin) := rfl

/-- C3.  `parse("(lambda (a b) (+ a b))")` yields the lambda form, and
applying it to `3` and `4` in any environment (well-formed, zero budget,
`+` resolving to addition) returns `7`, evaluating the body in a fresh
frame that binds the parameters positionally and chains to the frame
captured at lambda creation.  The final three conjuncts exhibit lexical
scoping concretely: with `y = 10` and `g = (lambda () y)` defined in the
global frame, calling `g` from inside `((lambda (y) (g)) 99)` — whose
call frame binds `y = 99` — still yields `10`, because `g`'s body frame
chains to the *defining* environment, not the call site. -/
theorem C3_lambda_closure
    (f : Nat) (st : State) (now r : Nat) (fr : Frame) (jp : Nat)
    (hwf : wfStateB st = true)
    (hfr : st.getFrame r = some fr)
    (hrt : fr.max_runtime = 0)
    (hplus : envFind st r "+" = some (jp, .prim "+")) :
    parseStr "(lambda (a b) (+ a b))" =
      .ok (.list [.str "lambda", .list [.str "a", .str "b"],
        .list [.str "+", .str "a", .str "b"]]) ∧
    lisp_eval (f + 4) st now r
        (.list [.list [.str "lambda", .list [.str "a", .str "b"],
          .list [.str "+", .str "a", .str "b"]], .int 3, .int 4]) =
      .ok (.int 7)
        ⟨st.frames ++ [⟨[("a", .int 3), ("b", .int 4)], some r, now + 4, 0⟩]⟩
        (now + 8) ∧
    lisp_eval 20 ⟨[⟨[("+", .prim "+")], Option.none, 0, 0⟩]⟩ 0 0
        (.list [.str "define", .str "y", .int 10]) =
      .ok .none ⟨[⟨[("+", .prim "+"), ("y", .int 10)], Option.none, 0, 0⟩]⟩ 2 ∧
    lisp_eval 20 ⟨[⟨[("+", .prim "+"), ("y", .int 10)], Option.none, 0, 0⟩]⟩ 2 0
        (.list [.str "define", .str "g", .list [.str "lambda", .list [], .str "y"]]) =
      .ok .none
        ⟨[⟨[("+", .prim "+"), ("y", .int 10),
            ("g", .proc (.list []) (.str "y") 0)], Option.none, 0, 0⟩]⟩ 4 ∧
    lisp_eval 20
        ⟨[⟨[("+", .prim "+"), ("y", .int 10),
            ("g", .proc (.list []) (.str "y") 0)], Option.none, 0, 0⟩]⟩ 4 0
        (.list [.list [.str "lambda", .list [.str "y"], .list [.str "g"]], .int 99]) =
      .ok (.int 10)
        ⟨[⟨[("+", .prim "+"), ("y", .int 10),
            ("g", .proc (.list []) (.str "y") 0)], Option.none, 0, 0⟩,
          ⟨[("y", .int 99)], some 0, 7, 0⟩,
          ⟨[], some 0, 9, 0⟩]⟩ 10 := by
  have hto : ∀ n, timedOut st r n = false := fun n =>
    timedOut_zero_budget st r n fr hfr hrt
  have hr : r < st.frames.length := by
    unfold State.getFrame at hfr
    by_contra hge
    rw [List.getElem?_eq_none (by omega)] at hfr
    cases hfr
  have hgetP : ∀ n : Nat,
      (⟨st.frames ++ [⟨[("a", .int 3), ("b", .int 4)], some r, n, 0⟩]⟩ : State).getFrame
        st.frames.length =
      some ⟨[("a", .int 3), ("b", .int 4)], some r, n, 0⟩ := fun n =>
    getFrame_append_self st _
  have htoP : ∀ n m : Nat,
      timedOut (⟨st.frames ++ [⟨[("a", .int 3), ("b", .int 4)], some r, n, 0⟩]⟩ : State)
        st.frames.length m = false := fun n m =>
    timedOut_zero_budget _ _ _ _ (hgetP n) rfl
  have hlenP : ∀ n : Nat,
      (⟨st.frames ++ [⟨[("a", .int 3), ("b", .int 4)], some r, n, 0⟩]⟩ : State).frames.length =
        st.frames.length + 1 := fun n => by simp
  have hfindPlusP : ∀ n : Nat,
      envFind (⟨st.frames ++ [⟨[("a", .int 3), ("b", .int 4)], some r, n, 0⟩]⟩ : State)
        st.frames.length "+" = some (jp, .prim "+") := by
    intro n
    unfold envFind
    rw [hlenP n]
    unfold findPairF
    rw [hgetP n]
    dsimp only
    rw [findPairF_append st _ hwf st.frames.length r "+" hr]
    exact hplus
  have hfind_a : ∀ n : Nat,
      envFind (⟨st.frames ++ [⟨[("a", .int 3), ("b", .int 4)], some r, n, 0⟩]⟩ : State)
        st.frames.length "a" = some (st.frames.length, .int 3) := by
    intro n
    unfold envFind
    rw [hlenP n]
    unfold findPairF
    rw [hgetP n]
    rfl
  have hfind_b : ∀ n : Nat,
      envFind (⟨st.frames ++ [⟨[("a", .int 3), ("b", .int 4)], some r, n, 0⟩]⟩ : State)
        st.frames.length "b" = some (st.frames.length, .int 4) := by
    intro n
    unfold envFind
    rw [hlenP n]
    unfold findPairF
    rw [hgetP n]
    rfl
  have hbody : ∀ n m : Nat,
      lisp_eval (f + 3)
        (⟨st.frames ++ [⟨[("a", .int 3), ("b", .int 4)], some r, n, 0⟩]⟩ : State)
        m st.frames.length (.list [.str "+", .str "a", .str "b"]) =
      .ok (.int 7)
        (⟨st.frames ++ [⟨[("a", .int 3), ("b", .int 4)], some r, n, 0⟩]⟩ : State)
        (m + 4) := by
    intro n m
    rw [lisp_eval_succ]
    simp only [htoP, Bool.false_eq_true, if_false]
    rw [evalBody_call_plus]
    rw [lisp_eval_var (f + 1) _ _ _ "+" jp (.prim "+") (htoP n _) rfl (hfindPlusP n)]
    dsimp only
    simp only [evalArgsWith]
    rw [lisp_eval_var (f + 1) _ _ _ "a" st.frames.length (.int 3) (htoP n _) rfl (hfind_a n)]
    dsimp only
    rw [lisp_eval_var (f + 1) _ _ _ "b" st.frames.length (.int 4) (htoP n _) rfl (hfind_b n)]
    rfl
  have happly : ∀ (ev : Evaluator) (st' : State) (n : Nat),
      applyCallableWith ev st' n
        (.proc (.list [.str "a", .str "b"]) (.list [.str "+", .str "a", .str "b"]) r)
        [.int 3, .int 4] =
      ev ⟨st'.frames ++ [⟨[("a", .int 3), ("b", .int 4)], some r, n, 0⟩]⟩ n
        st'.frames.length (.list [.str "+", .str "a", .str "b"]) :=
    fun ev st' n => rfl
  refine ⟨rfl, ?_, rfl, rfl, rfl⟩
  rw [lisp_eval_succ]
  simp only [hto, Bool.false_eq_true, if_false]
  rw [evalBody_call_list]
  have hlam : lisp_eval (f + 3) st (now + 1) r
      (.list [.str "lambda", .list [.str "a", .str "b"],
        .list [.str "+", .str "a", .str "b"]]) =
      .ok (.proc (.list [.str "a", .str "b"]) (.list [.str "+", .str "a", .str "b"]) r)
        st (now + 1 + 1) := by
    rw [lisp_eval_succ]
    simp only [hto, Bool.false_eq_true, if_false]
    rw [evalBody_lambda]
  rw [hlam]
  dsimp only
  simp only [evalArgsWith]
  rw [lisp_eval_int (f + 2) _ _ r 3 (hto _)]
  dsimp only
  rw [lisp_eval_int (f + 2) _ _ r 4 (hto _)]
  dsimp only
  rw [happly]
  rw [hbody]

/-- C3, witness: the application on the standard global environment. -/
theorem C3_lambda_closure_witness :
    lisp_eval 10 initState 0 0
        (.list [.list [.str "lambda", .list [.str "a", .str "b"],
          .list [.str "+", .str "a", .str "b"]], .int 3, .int 4]) =
      .ok (.int 7)
        ⟨initState.frames ++ [⟨[("a", .int 3), ("b", .int 4)], some 0, 4, 0⟩]⟩ 8 :=
  (C3_lambda_closure 6 initState 0 0 ⟨stdTable, Option.none, 0, 0⟩ 0
    rfl rfl rfl rfl).2.1

/-- Helper for C5: iterating `while true: 0` in a frame whose budget `m`
is nonzero eventually meets the entry check (the clock advances two
ticks per iteration), raising the bare timeout error no later than two
ticks past the deadline. -/
theorem evalWhile_true_timeout
    (f' : Nat) (st : State) (r : Nat) (fr : Frame) (t m : Nat)
    (hfr : st.getFrame r = some fr) (hts : fr.timestamp = t)
    (hm : fr.max_runtime = m) (hm0 : m ≠ 0) :
    ∀ w now, now ≤ t + m → t + m + 1 ≤ now + w →
    ∃ n', evalWhileWith (fun st2 n2 r2 x2 => lisp_eval (f' + 1) st2 n2 r2 x2)
        w st now r (.bool true) (some (.int 0)) =
          .err (.ccErr "The command ran too long.") st n' ∧
        now < n' ∧ n' ≤ t + m + 2 := by
  have htoEq : ∀ n, timedOut st r n = decide (m < n - t) := by
    intro n
    unfold timedOut
    rw [hfr]
    dsimp only
    rw [hts, hm]
    simp [hm0]
  intro w
  induction w with
  | zero => intro now h1 h2; omega
  | succ w ih =>
    intro now h1 h2
    unfold evalWhileWith
    dsimp only
    by_cases hfire : m < (now + 1) - t
    · have htest : lisp_eval (f' + 1) st now r (.bool true) =
          .err (.ccErr "The command ran too long.") st (now + 1) := by
        rw [lisp_eval_succ]
        rw [htoEq (now + 1)]
        simp [hfire]
      rw [htest]
      exact ⟨now + 1, rfl, by omega, by omega⟩
    · have htest : lisp_eval (f' + 1) st now r (.bool true) =
          .ok (.bool true) st (now + 1) :=
        lisp_eval_bool f' st now r true (by rw [htoEq]; simp; omega)
      rw [htest]
      dsimp only [pyTruthy]
      by_cases hfire2 : m < (now + 1 + 1) - t
      · have hbody : lisp_eval (f' + 1) st (now + 1) r (.int 0) =
            .err (.ccErr "The command ran too long.") st (now + 1 + 1) := by
          rw [lisp_eval_succ]
          rw [htoEq (now + 1 + 1)]
          simp [hfire2]
        rw [hbody]
        exact ⟨now + 2, rfl, by omega, by omega⟩
      · have hbody : lisp_eval (f' + 1) st (now + 1) r (.int 0) =
            .ok (.int 0) st (now + 1 + 1) :=
          lisp_eval_int f' st (now + 1) r 0 (by rw [htoEq]; simp; omega)
        rw [hbody]
        obtain ⟨n', heq, hlt, hle⟩ := ih (now + 1 + 1) (by omega) (by omega)
        exact ⟨n', heq, by omega, hle⟩


/-- C5, counterexample.  The claim says every recursive entry of the
evaluator checks elapsed time against the root's timestamp and fails
once the budget is exceeded.  In fact the check reads the *current*
frame's budget, and frames created by procedure calls carry budget `0`:
with a root budget of `3` ticks, evaluating `((lambda () (do 1 ... 1)))`
runs its body in a child frame for `14` ticks and returns `1` — the
final conjuncts confirm that at the final clock the root frame's check
would fire while the child frame's never does. -/
theorem C5_lambda_body_escapes_budget :
    lisp_eval 40 ⟨[⟨[("do", .prim "do")], Option.none, 0, 3⟩]⟩ 0 0
        (.list [.list [.str "lambda", .list [],
          .list ((.str "do") :: List.replicate 10 (.int 1))]]) =
      .ok (.int 1)
        ⟨[⟨[("do", .prim "do")], Option.none, 0, 3⟩, ⟨[], some 0, 2, 0⟩]⟩ 14 ∧
    timedOut ⟨[⟨[("do", .prim "do")], Option.none, 0, 3⟩, ⟨[], some 0, 2, 0⟩]⟩ 1 14 =
      false ∧
    timedOut ⟨[⟨[("do", .prim "do")], Option.none, 0, 3⟩]⟩ 0 14 = true :=
  ⟨rfl, rfl, rfl⟩

/-- C5, amended.  A `while true` loop evaluated *in* a frame with
nonzero budget `m` and timestamp `t` (the root scenario — `while`
re-enters the evaluator with the same environment, so every entry
consults that budget) fails with the timeout error, wrapped once with
the `(while)` context prefix, within two ticks of the deadline `t + m`;
entries in procedure-call child frames, by contrast, carry budget `0`
and are exempt (see the counterexample). -/
theorem C5_while_true_times_out
    (f' : Nat) (st : State) (now r : Nat) (fr : Frame) (t m : Nat)
    (hfr : st.getFrame r = some fr) (hts : fr.timestamp = t)
    (hm : fr.max_runtime = m) (hm0 : m ≠ 0)
    (hnow : now + 1 ≤ t + m) (hfuel : t + m + 2 ≤ now + f' + 1) :
    ∃ n', lisp_eval (f' + 1) st now r
        (.list [.str "while", .bool true, .int 0]) =
      .err (.ccErr "(while): The command ran too long.") st n' ∧
      n' ≤ t + m + 2 := by
  have htoEq : ∀ n, timedOut st r n = decide (m < n - t) := by
    intro n
    unfold timedOut
    rw [hfr]
    dsimp only
    rw [hts, hm]
    simp [hm0]
  obtain ⟨f'', rfl⟩ : ∃ f'', f' = f'' + 1 := ⟨f' - 1, by omega⟩
  obtain ⟨n', heq, hlt, hle⟩ :=
    evalWhile_true_timeout f'' st r fr t m hfr hts hm hm0 (f'' + 1) (now + 1)
      (by omega) (by omega)
  refine ⟨n', ?_, hle⟩
  rw [lisp_eval_succ]
  rw [htoEq (now + 1)]
  have hnofire : ¬ (m < (now + 1) - t) := by omega
  simp only [hnofire, decide_eq_true_eq, if_false, decide_eq_false_iff_not]
  rw [evalBody_while]
  dsimp only [List.head?]
  rw [heq]
  rfl

/-- C5, witness: budget `2`, timestamp `0`: the loop dies by tick `4`. -/
theorem C5_while_true_times_out_witness :
    ∃ n', lisp_eval 10 ⟨[⟨[], Option.none, 0, 2⟩]⟩ 0 0
        (.list [.str "while", .bool true, .int 0]) =
      .err (.ccErr "(while): The command ran too long.")
        ⟨[⟨[], Option.none, 0, 2⟩]⟩ n' ∧ n' ≤ 0 + 2 + 2 :=
  C5_while_true_times_out 9 ⟨[⟨[], Option.none, 0, 2⟩]⟩ 0 0
    ⟨[], Option.none, 0, 2⟩ 0 2 rfl rfl rfl (by omega) (by omega) (by omega)

/-- C6, counterexample.  The claim asserts `restore(escape(s)) == s` for
every `s` free of placeholder characters.  The source `["\\\\", "\\n",
"\\\""]` triples map each *escape sequence* to a placeholder, but restore
maps the placeholder to the *unescaped* character: for
`s = ['\\', 'n']` (two characters, no placeholders) the round trip
yields the single newline character, not `s`. -/
theorem C6_restore_escape_not_inverse :
    l_restore (l_escape ['\\', 'n']) = ['\n'] ∧
    (['\\', 'n'] : List Char) ≠ ['\n'] ∧
    listIsSub ['＀'] ['\\', 'n'] = false ∧
    listIsSub ['！'] ['\\', 'n'] = false ∧
    listIsSub ['＂'] ['\\', 'n'] = false := by
  refine ⟨rfl, by decide, rfl, rfl, rfl⟩

theorem strReplaceF_not_sub (p r : List Char) (hp : listIsSub p cs = false) :
    ∀ fuel, strReplaceF p r fuel cs = cs := by
  induction cs with
  | nil => intro fuel; cases fuel <;> rfl
  | cons c cs ih =>
    intro fuel
    cases fuel with
    | zero => rfl
    | succ fuel =>
      unfold listIsSub at hp
      rw [Bool.or_eq_false_iff] at hp
      unfold strReplaceF
      rw [hp.1]
      simp only [Bool.false_eq_true, if_false]
      rw [ih hp.2 fuel]

theorem strReplace_not_sub (a : Char) (p' r : List Char)
    (hp : listIsSub (a :: p') cs = false) :
    strReplace cs (a :: p') r = cs := by
  unfold strReplace
  exact strReplaceF_not_sub (a :: p') r hp _

/-- C6, amended: `restore ∘ escape` is the identity exactly on strings
containing none of the three two-character escape sequences and none of
the three placeholder characters; `escape` then rewrites nothing and
`restore` finds no placeholder. -/
theorem C6_escape_restore_id (s : List Char)
    (h1 : listIsSub ['\\', '\\'] s = false)
    (h2 : listIsSub ['\\', '\"'] s = false)
    (h3 : listIsSub ['\\', 'n'] s = false)
    (h4 : listIsSub ['＀'] s = false)
    (h5 : listIsSub ['！'] s = false)
    (h6 : listIsSub ['＂'] s = false) :
    l_restore (l_escape s) = s := by
  have hesc : l_escape s = s := by
    unfold l_escape escapes
    simp only [List.foldl]
    rw [strReplace_not_sub _ _ _ h1, strReplace_not_sub _ _ _ h2,
      strReplace_not_sub _ _ _ h3]
  rw [hesc]
  unfold l_restore escapes
  simp only [List.foldl]
  rw [strReplace_not_sub _ _ _ h4, strReplace_not_sub _ _ _ h5,
    strReplace_not_sub _ _ _ h6]

/-- C6, witness: a plain string with no escapes round-trips unchanged. -/
theorem C6_escape_restore_id_witness :
    l_restore (l_escape ['a', 'b', 'c']) = ['a', 'b', 'c'] :=
  C6_escape_restore_id ['a', 'b', 'c'] rfl rfl rfl rfl rfl rfl

/-- C7, counterexample.  The claim asserts
`transcode(transcode(s, A, B), B, A) == s` for *every* pair of
equal-length mapping strings.  With `s = "x"`, `A = "ab"`, `B = "xy"`:
the forward pass leaves `"x"` unchanged (`x` is not in `A`), and the
backward pass maps `x ↦ a`, so the round trip returns `"a" ≠ "x"`. -/
theorem C7_transcode_roundtrip_fails :
    transcodeFn "x" ["ab", "xy"] = .ok "x" ∧
    transcodeFn "x" ["xy", "ab"] = .ok "a" ∧
    ("a" : String) ≠ "x" :=
  ⟨rfl, rfl, by decide⟩

theorem lookupT_none_of_not_mem (c : Char) :
    ∀ (A B : List Char), c ∉ A → lookupT A B c = Option.none := by
  intro A
  induction A with
  | nil => intro B _; cases B <;> rfl
  | cons a A ih =>
    intro B hc
    cases B with
    | nil => rfl
    | cons b B =>
      unfold lookupT
      rw [ih B (by simp at hc; exact hc.2)]
      simp at hc
      simp [hc.1]

theorem lookupT_swap_of_mem_zip (c d : Char) :
    ∀ (A B : List Char), B.Nodup → (c, d) ∈ A.zip B →
      lookupT B A d = some c := by
  intro A
  induction A with
  | nil => intro B _ h; simp at h
  | cons a A ih =>
    intro B hB hmem
    cases B with
    | nil => simp at hmem
    | cons b B =>
      simp only [List.zip_cons_cons, List.mem_cons] at hmem
      rw [List.nodup_cons] at hB
      unfold lookupT
      cases hmem with
      | inl heq =>
        have h1 : c = a := congrArg Prod.fst heq
        have h2 : d = b := congrArg Prod.snd heq
        subst h1; subst h2
        rw [lookupT_none_of_not_mem d B A hB.1]
        simp
      | inr hmem =>
        rw [ih B hB.2 hmem]

theorem lookupT_of_mem (c : Char) :
    ∀ (A B : List Char), A.Nodup → A.length = B.length → c ∈ A →
      ∃ d, lookupT A B c = some d ∧ (c, d) ∈ A.zip B := by
  intro A
  induction A with
  | nil => intro B _ _ h; simp at h
  | cons a A ih =>
    intro B hA hlen hc
    cases B with
    | nil => simp at hlen
    | cons b B =>
      rw [List.nodup_cons] at hA
      simp only [List.length_cons, Nat.add_right_cancel_iff] at hlen
      rcases List.mem_cons.mp hc with rfl | hc'
      · refine ⟨b, ?_, by simp⟩
        unfold lookupT
        rw [lookupT_none_of_not_mem c A B hA.1]
        simp
      · obtain ⟨d, hl, hz⟩ := ih B hA.2 hlen hc'
        refine ⟨d, ?_, by simp [hz]⟩
        unfold lookupT
        rw [hl]

theorem applyT_roundtrip (A B : List Char) (c : Char)
    (hA : A.Nodup) (hB : B.Nodup) (hlen : A.length = B.length)
    (hc : c ∈ A ∨ c ∉ B) :
    ((lookupT B A (((lookupT A B c).getD c))).getD ((lookupT A B c).getD c)) = c := by
  rcases hc with hin | hout
  · obtain ⟨d, hl, hz⟩ := lookupT_of_mem c A B hA hlen hin
    rw [hl]
    simp only [Option.getD_some]
    rw [lookupT_swap_of_mem_zip c d A B hB hz]
    rfl
  · by_cases hinA : c ∈ A
    · obtain ⟨d, hl, hz⟩ := lookupT_of_mem c A B hA hlen hinA
      rw [hl]
      simp only [Option.getD_some]
      rw [lookupT_swap_of_mem_zip c d A B hB hz]
      rfl
    · rw [lookupT_none_of_not_mem c A B hinA]
      simp only [Option.getD_none]
      rw [lookupT_none_of_not_mem c B A hout]
      rfl

theorem pyTranslate_roundtrip (s A B : List Char)
    (hA : A.Nodup) (hB : B.Nodup) (hlen : A.length = B.length)
    (hs : ∀ c ∈ s, c ∈ A ∨ c ∉ B) :
    pyTranslate (pyTranslate s A B) B A = s := by
  unfold pyTranslate
  rw [List.map_map]
  apply List.map_congr_left ?_ |>.trans (List.map_id s)
  intro c hc
  exact applyT_roundtrip A B c hA hB hlen (hs c hc)

/-- C7, amended.  For equal-length mapping strings `A`, `B` that are
each duplicate-free, and any `s` whose characters each occur in `A` or
avoid `B`, the two-argument `transcode` translates character by
character and the round trip restores `s`; for every unequal-length
pair it fails with the length-mismatch syntax error.  (Without the
duplicate-freeness and avoidance conditions the round trip fails — see
the counterexample.) -/
theorem C7_transcode_roundtrip (s A B : String)
    (hlen : A.length = B.length)
    (hA : A.data.Nodup) (hB : B.data.Nodup)
    (hs : ∀ c ∈ s.data, c ∈ A.data ∨ c ∉ B.data) :
    transcodeFn s [A, B] = .ok (String.mk (pyTranslate s.data A.data B.data)) ∧
    transcodeFn (String.mk (pyTranslate s.data A.data B.data)) [B, A] = .ok s ∧
    (∀ (s' A' B' : String), A'.length ≠ B'.length →
      transcodeFn s' [A', B'] =
        .error (.ccErr "transcode: To and From transcoding patterns must be the same length.")) := by
  refine ⟨?_, ?_, ?_⟩
  · unfold transcodeFn
    simp [hlen]
  · unfold transcodeFn
    simp only [hlen, ne_eq, not_true_eq_false, if_false, ite_not]
    have hlen' : A.data.length = B.data.length := hlen
    rw [pyTranslate_roundtrip s.data A.data B.data hA hB hlen' hs]
  · intro s' A' B' h
    unfold transcodeFn
    simp [h]

/-- C7, witness: `"abc"` through `("ab", "xy")` becomes `"xyc"` and
back, and a length-mismatch raises. -/
theorem C7_transcode_roundtrip_witness :
    transcodeFn "abc" ["ab", "xy"] = .ok "xyc" ∧
    transcodeFn "xyc" ["xy", "ab"] = .ok "abc" ∧
    transcodeFn "q" ["a", "xy"] =
      .error (.ccErr "transcode: To and From transcoding patterns must be the same length.") := by
  have h := C7_transcode_roundtrip "abc" "ab" "xy" rfl (by decide) (by decide)
    (by decide)
  exact ⟨h.1, h.2.1, h.2.2 "q" "a" "xy" (by decide)⟩

theorem evalBody_struct (ev : Evaluator) (wfuel : Nat) (st : State)
    (now r : Nat) (name params : LVal) :
    evalBodyWith ev wfuel st now r (.list [.str "struct", name, params]) =
      (match makeFunctions st r name params with
       | .ok st' => .ok .none st' now
       | .error e => .err e st now) := rfl

theorem evalBody_call_pointq (ev : Evaluator) (wfuel : Nat) (st : State)
    (now r : Nat) (rest : List LVal) :
    evalBodyWith ev wfuel st now r (.list (.str "point?" :: rest)) =
      (match ev st now r (.str "point?") with
       | .ok p st1 now1 =>
         (match evalArgsWith ev st1 now1 r rest with
          | .ok args st2 now2 => applyCallableWith ev st2 now2 p args
          | .err e st2 now2 => .err e st2 now2
          | .spin => .spin)
       | .err e st1 now1 => .err e st1 now1
       | .spin => .spin) := rfl

theorem evalBody_call_listsym (ev : Evaluator) (wfuel : Nat) (st : State)
    (now r : Nat) (rest : List LVal) :
    evalBodyWith ev wfuel st now r (.list (.str "list" :: rest)) =
      (match ev st now r (.str "list") with
       | .ok p st1 now1 =>
         (match evalArgsWith ev st1 now1 r rest with
          | .ok args st2 now2 => applyCallableWith ev st2 now2 p args
          | .err e st2 now2 => .err e st2 now2
          | .spin => .spin)
       | .err e st1 now1 => .err e st1 now1
       | .spin => .spin) := rfl

/-- the undefined-variable failure of `make-point`, wrapped at its own
level with the symbol's first character. -/
theorem lisp_eval_makepoint_undef (f : Nat) (st : State) (now : Nat)
    (hto : timedOut st 0 (now + 1) = false)
    (hfind : envFind st 0 "make-point" = Option.none) :
    lisp_eval (f + 1) st now 0 (.str "make-point") =
      .err (.ccErr "(m): undefined var make-point") st (now + 1) := by
  have hsplit : splitColon "make-point" = ["make-point"] := rfl
  simp [lisp_eval, evalBodyWith, evalSymbolWith, hto, hsplit, hfind,
    evalIdxPartsWith, wrapErr, headForWrap]
  rw [if_neg (by decide)]
  rfl

/-- C10.  Part one: evaluating `(struct point (x y))` in *any* frame `r`
(zero budget) succeeds and installs all five struct bindings — in
particular `make-point` ↦ `2` — into frame `r` itself, as the second
conjunct exhibits.  Part two: in any state whose frame `r` binds
`point?` to the generated predicate and resolves `list`, but whose
module-global frame `0` (outer-less, zero budget) lacks `make-point`,
the call `(point? (list 1 2))` made *in frame `r`* fails with
`(point?): (m): undefined var make-point` — the predicate evaluates its
`make-point` marker in the module-global environment (frame `0`), not
in the environment the struct was declared in. -/
theorem C10_struct_predicate_global_lookup :
    (∀ (f : Nat) (st : State) (now r : Nat) (fr : Frame),
      st.getFrame r = some fr →
      fr.max_runtime = 0 →
      lisp_eval (f + 1) st now r
          (.list [.str "struct", .str "point", .list [.str "x", .str "y"]]) =
        .ok .none
          (((((st.setVar r "point-x-pos" (.int 0)).setVar r "point-y-pos"
              (.int 1)).setVar r "point-pos" .structPos).setVar r "point?"
              (.structCheck "point")).setVar r "make-point" (.int 2))
          (now + 1) ∧
      envFind
          (((((st.setVar r "point-x-pos" (.int 0)).setVar r "point-y-pos"
              (.int 1)).setVar r "point-pos" .structPos).setVar r "point?"
              (.structCheck "point")).setVar r "make-point" (.int 2))
          r "make-point" = some (r, .int 2))
    ∧
    (∀ (f : Nat) (st : State) (now r i j : Nat) (fr g : Frame),
      st.getFrame r = some fr →
      fr.max_runtime = 0 →
      st.getFrame 0 = some g →
      g.max_runtime = 0 →
      g.outer = Option.none →
      tget g.table "make-point" = Option.none →
      envFind st r "point?" = some (i, .structCheck "point") →
      envFind st r "list" = some (j, .prim "list") →
      lisp_eval (f + 4) st now r
          (.list [.str "point?", .list [.str "list", .int 1, .int 2]]) =
        .err (.ccErr "(point?): (m): undefined var make-point") st (now + 7)) := by
  constructor
  · intro f st now r fr hfr hrt
    have hto : ∀ n, timedOut st r n = false := fun n =>
      timedOut_zero_budget st r n fr hfr hrt
    constructor
    · rw [lisp_eval_succ]
      simp only [hto, Bool.false_eq_true, if_false]
      rw [evalBody_struct]
      rfl
    · have h1 := getFrame_setVar_self st r "point-x-pos" (.int 0) fr hfr
      have h2 := getFrame_setVar_self _ r "point-y-pos" (.int 1) _ h1
      have h3 := getFrame_setVar_self _ r "point-pos" .structPos _ h2
      have h4 := getFrame_setVar_self _ r "point?" (.structCheck "point") _ h3
      exact envFind_setVar_self _ r "make-point" (.int 2) _ h4
  · intro f st now r i j fr g hfr hrt hg hg0 hgout hgmp hpq hlist
    have hto : ∀ n, timedOut st r n = false := fun n =>
      timedOut_zero_budget st r n fr hfr hrt
    have hto0 : ∀ n, timedOut st 0 n = false := fun n =>
      timedOut_zero_budget st 0 n g hg hg0
    have hfind0 : envFind st 0 "make-point" = Option.none := by
      have hlen : 0 < st.frames.length := by
        unfold State.getFrame at hg
        by_contra hge
        rw [List.getElem?_eq_none (by omega)] at hg
        cases hg
      obtain ⟨m, hm⟩ : ∃ m, st.frames.length = m + 1 :=
        ⟨st.frames.length - 1, by omega⟩
      unfold envFind
      rw [hm]
      unfold findPairF
      rw [hg]
      dsimp only
      rw [hgmp]
      dsimp only
      rw [hgout]
    have hlistform : lisp_eval (f + 3) st (now + 2) r
        (.list [.str "list", .int 1, .int 2]) =
        .ok (.list [.int 1, .int 2]) st (now + 6) := by
      rw [lisp_eval_succ]
      simp only [hto, Bool.false_eq_true, if_false]
      rw [evalBody_call_listsym]
      rw [lisp_eval_var (f + 1) _ _ r "list" j (.prim "list") (hto _) rfl hlist]
      dsimp only
      simp only [evalArgsWith]
      rw [lisp_eval_int (f + 1) _ _ r 1 (hto _)]
      dsimp only
      rw [lisp_eval_int (f + 1) _ _ r 2 (hto _)]
      rfl
    rw [lisp_eval_succ]
    simp only [hto, Bool.false_eq_true, if_false]
    rw [evalBody_call_pointq]
    rw [lisp_eval_var (f + 2) _ _ r "point?" i (.structCheck "point") (hto _) rfl hpq]
    dsimp only
    simp only [evalArgsWith]
    rw [hlistform]
    dsimp only
    dsimp only [applyCallableWith, pyLen]
    have hmk : ("make-" ++ "point" : String) = "make-point" := rfl
    rw [hmk]
    rw [lisp_eval_makepoint_undef (f + 2) st (now + 6) (hto0 _) hfind0]
    rfl

/-- C10 witness: on the two-frame state (global `stdTable` frame `0`,
empty child frame `1`), `(struct point (x y))` evaluated in frame `1`
installs the five bindings into frame `1`; in the resulting state the
call `(point? (list 1 2))` made in frame `1` fails with
`(point?): (m): undefined var make-point`, although frame `1` itself
binds `make-point`. -/
theorem C10_struct_predicate_global_lookup_witness :
    ((⟨[⟨stdTable, Option.none, 0, 0⟩, ⟨[], some 0, 0, 0⟩]⟩ : State).getFrame 1 =
        some ⟨[], some 0, 0, 0⟩ ∧
     (⟨[], some 0, 0, 0⟩ : Frame).max_runtime = 0 ∧
     lisp_eval 10 ⟨[⟨stdTable, Option.none, 0, 0⟩, ⟨[], some 0, 0, 0⟩]⟩ 0 1
         (.list [.str "struct", .str "point", .list [.str "x", .str "y"]]) =
       .ok .none
         ⟨[⟨stdTable, Option.none, 0, 0⟩,
           ⟨[("point-x-pos", .int 0), ("point-y-pos", .int 1),
             ("point-pos", .structPos), ("point?", .structCheck "point"),
             ("make-point", .int 2)], some 0, 0, 0⟩]⟩ 1 ∧
     envFind
         ⟨[⟨stdTable, Option.none, 0, 0⟩,
           ⟨[("point-x-pos", .int 0), ("point-y-pos", .int 1),
             ("point-pos", .structPos), ("point?", .structCheck "point"),
             ("make-point", .int 2)], some 0, 0, 0⟩]⟩
         1 "make-point" = some (1, .int 2))
    ∧
    (envFind
         ⟨[⟨stdTable, Option.none, 0, 0⟩,
           ⟨[("point-x-pos", .int 0), ("point-y-pos", .int 1),
             ("point-pos", .structPos), ("point?", .structCheck "point"),
             ("make-point", .int 2)], some 0, 0, 0⟩]⟩
         1 "point?" = some (1, .structCheck "point") ∧
     envFind
         ⟨[⟨stdTable, Option.none, 0, 0⟩,
           ⟨[("point-x-pos", .int 0), ("point-y-pos", .int 1),
             ("point-pos", .structPos), ("point?", .structCheck "point"),
             ("make-point", .int 2)], some 0, 0, 0⟩]⟩
         1 "list" = some (0, .prim "list") ∧
     tget stdTable "make-point" = Option.none ∧
     lisp_eval 10
         ⟨[⟨stdTable, Option.none, 0, 0⟩,
           ⟨[("point-x-pos", .int 0), ("point-y-pos", .int 1),
             ("point-pos", .structPos), ("point?", .structCheck "point"),
             ("make-point", .int 2)], some 0, 0, 0⟩]⟩ 0 1
         (.list [.str "point?", .list [.str "list", .int 1, .int 2]]) =
       .err (.ccErr "(point?): (m): undefined var make-point")
         ⟨[⟨stdTable, Option.none, 0, 0⟩,
           ⟨[("point-x-pos", .int 0), ("point-y-pos", .int 1),
             ("point-pos", .structPos), ("point?", .structCheck "point"),
             ("make-point", .int 2)], some 0, 0, 0⟩]⟩ 7) := by
  have h1 := C10_struct_predicate_global_lookup.1 9
    ⟨[⟨stdTable, Option.none, 0, 0⟩, ⟨[], some 0, 0, 0⟩]⟩ 0 1
    ⟨[], some 0, 0, 0⟩ rfl rfl
  have h2 := C10_struct_predicate_global_lookup.2 6
    ⟨[⟨stdTable, Option.none, 0, 0⟩,
      ⟨[("point-x-pos", .int 0), ("point-y-pos", .int 1),
        ("point-pos", .structPos), ("point?", .structCheck "point"),
        ("make-point", .int 2)], some 0, 0, 0⟩]⟩ 0 1 1 0
    ⟨[("point-x-pos", .int 0), ("point-y-pos", .int 1),
      ("point-pos", .structPos), ("point?", .structCheck "point"),
      ("make-point", .int 2)], some 0, 0, 0⟩
    ⟨stdTable, Option.none, 0, 0⟩ rfl rfl rfl rfl rfl rfl rfl rfl
  exact ⟨⟨rfl, rfl, h1.1, h1.2⟩, rfl, rfl, rfl, h2⟩
